import Mathlib

/-!
# Verification of the REACT-DND-DICE-COMPONENTS dice components

This file embeds the algorithmic core of the six React/three.js dice
components (`D4.js`, `D6.js`, `D8.js`, `D10.js`, `D12.js`, `D20.js`) and
proves or refutes the specification claims about them.

Modelling conventions:

* three.js `Vector3` / `Quaternion` values are embedded as `Vec3 F` /
  `Quat F` over an arbitrary `LinearOrderedField F`.  Geometry whose
  coordinates are irrational (golden ratio, cosines of multiples of 36°,
  vertex-normalisation factors) is embedded as functions of scalar
  parameters; theorems constrain those parameters by their exact defining
  equations (for example `t ^ 2 = t + 1` for the golden ratio) and closed
  corollaries instantiate them at the genuine real constants.
* `Math.random()` draws are threaded explicitly: each `rollDice` call
  consumes one face sample and three direction samples.
* React `useState` setters executed synchronously inside `rollDice` become
  one state-record update; the single `setTimeout` body becomes an explicit
  `Timeout` value recording its delay and the `onRollComplete` invocation
  (if any) it performs.
-/

namespace Dice

/-! ## Vector and quaternion primitives (three.js `Vector3` / `Quaternion`) -/

/-- A three.js `Vector3` over the scalar field `F`. -/
structure Vec3 (F : Type) where
  x : F
  y : F
  z : F
deriving DecidableEq, Repr

/-- Componentwise vector addition. -/
def vadd {F : Type} [LinearOrderedField F] (a b : Vec3 F) : Vec3 F :=
  ⟨a.x + b.x, a.y + b.y, a.z + b.z⟩

/-- Componentwise vector subtraction (`THREE.Vector3.subVectors`). -/
def vsub {F : Type} [LinearOrderedField F] (a b : Vec3 F) : Vec3 F :=
  ⟨a.x - b.x, a.y - b.y, a.z - b.z⟩

/-- Scalar multiple of a vector (`THREE.Vector3.multiplyScalar`). -/
def vsmul {F : Type} [LinearOrderedField F] (c : F) (a : Vec3 F) : Vec3 F :=
  ⟨c * a.x, c * a.y, c * a.z⟩

/-- Dot product (`THREE.Vector3.dot`). -/
def vdot {F : Type} [LinearOrderedField F] (a b : Vec3 F) : F :=
  a.x * b.x + a.y * b.y + a.z * b.z

/-- Cross product (`THREE.Vector3.cross`). -/
def vcross {F : Type} [LinearOrderedField F] (a b : Vec3 F) : Vec3 F :=
  ⟨a.y * b.z - a.z * b.y, a.z * b.x - a.x * b.z, a.x * b.y - a.y * b.x⟩

/-- Squared Euclidean norm (`THREE.Vector3.lengthSq`). -/
def vnormSq {F : Type} [LinearOrderedField F] (a : Vec3 F) : F :=
  a.x * a.x + a.y * a.y + a.z * a.z

/-- Division of a vector by the scalar `len`.  This embeds
`THREE.Vector3.normalize()` at a call site where `len` is the (generally
irrational) Euclidean length of the vector; theorems using it carry the
hypotheses `len ^ 2 = vnormSq v` and `0 < len`. -/
def normalizeWith {F : Type} [LinearOrderedField F] (v : Vec3 F) (len : F) : Vec3 F :=
  vsmul len⁻¹ v

/-- A three.js `Quaternion` over the scalar field `F`. -/
structure Quat (F : Type) where
  x : F
  y : F
  z : F
  w : F
deriving DecidableEq, Repr

/-- Squared norm of a quaternion. -/
def qnormSq {F : Type} [LinearOrderedField F] (q : Quat F) : F :=
  q.x * q.x + q.y * q.y + q.z * q.z + q.w * q.w

/-- Vector part of a quaternion. -/
def qvec {F : Type} [LinearOrderedField F] (q : Quat F) : Vec3 F :=
  ⟨q.x, q.y, q.z⟩

/-- `Number.EPSILON` (2⁻⁵²), the branch threshold inside
`THREE.Quaternion.setFromUnitVectors`. -/
def epsQ {F : Type} [LinearOrderedField F] : F :=
  1 / 4503599627370496

/-- `THREE.Quaternion.setFromUnitVectors(vFrom, vTo)` *before* its final
`this.normalize()` call.  The normalisation is performed by
`applyAsUnit` below, which rotates by `q / ‖q‖`. -/
def setFromUnitVectors {F : Type} [LinearOrderedField F] (vFrom vTo : Vec3 F) : Quat F :=
  let r := vdot vFrom vTo + 1
  if r < epsQ then
    if |vFrom.x| > |vFrom.z| then ⟨-vFrom.y, vFrom.x, 0, 0⟩
    else ⟨0, -vFrom.z, vFrom.y, 0⟩
  else
    ⟨vFrom.y * vTo.z - vFrom.z * vTo.y,
     vFrom.z * vTo.x - vFrom.x * vTo.z,
     vFrom.x * vTo.y - vFrom.y * vTo.x,
     r⟩

/-- Rotation of the vector `v` by the *normalisation* `q / ‖q‖` of `q`.
three.js applies a unit quaternion `u` to `v` as
`v + 2 u.w (u.xyz × v) + 2 u.xyz × (u.xyz × v)`; substituting
`u = q / ‖q‖` turns both correction terms into the same expressions in `q`
divided by `‖q‖²`, which is how this definition avoids the square root.
It therefore embeds the code path `q.normalize()` followed by
`v.applyQuaternion(q)`. -/
def applyAsUnit {F : Type} [LinearOrderedField F] (q : Quat F) (v : Vec3 F) : Vec3 F :=
  let n := qnormSq q
  let c1 := vcross (qvec q) v
  let c2 := vcross (qvec q) c1
  vadd v (vsmul (2 / n) (vadd (vsmul q.w c1) c2))

/-- `THREE.Quaternion.setFromEuler` for an `Euler(x, y, z)` in the default
`"XYZ"` order, expressed in the cosines and sines of the three half
angles (`c1 = cos(x/2)`, `s1 = sin(x/2)`, ...). -/
def quatFromEulerXYZ {F : Type} [LinearOrderedField F] (c1 s1 c2 s2 c3 s3 : F) : Quat F :=
  ⟨s1 * c2 * c3 + c1 * s2 * s3,
   c1 * s2 * c3 - s1 * c2 * s3,
   c1 * c2 * s3 + s1 * s2 * c3,
   c1 * c2 * c3 - s1 * s2 * s3⟩

/-- The fixed forward reference direction `(0, 0, 1)` that a settled face's
normal is aligned to (`const forward = new THREE.Vector3(0, 0, 1)`). -/
def forwardRef {F : Type} [LinearOrderedField F] : Vec3 F :=
  ⟨0, 0, 1⟩

/-! ## Controller model: `rollDice`, state and timeouts

Every component's `rollDice` has the same shape:

```js
const rollDice = () => {
  if (rolling) return;
  setRolling(true);
  const faceIndex = Math.floor(Math.random() * N);   // D6 inlines  + 1
  setResult(faceIndex + 1);
  const dir = new THREE.Vector3((Math.random() - 0.5) * 2,
                                Math.random() * 1.5 + 1.2,
                                (Math.random() - 0.5) * 2).normalize();
  setRollDirection([dir.x, dir.y, dir.z]);
  setResetSignal((s) => s + 1);
  ... compute targetQuaternion ...
  setTimeout(() => { setRolling(false); setTargetQuat(targetQuaternion);
                     if (onRollComplete) onRollComplete(faceNumber);   // absent in D10.js
                   }, ROLL_DURATION_MS);
};
```

The model records the state written synchronously and the single scheduled
timeout.  `rollDirection` is stored as the *unnormalised* direction vector:
the code stores its normalisation (a positive scalar multiple), and no claim
under examination depends on the stored magnitude, only on which random
draws the direction is a function of. -/

/-- The `Math.random()` draws consumed synchronously by one `rollDice` call,
in program order. -/
structure Draws where
  faceSample : ℚ
  dirX : ℚ
  dirY : ℚ
  dirZ : ℚ
deriving DecidableEq, Repr

/-- The React state of one die component touched by `rollDice`. -/
structure DieState where
  rolling : Bool
  result : ℤ
  rollDirection : Vec3 ℚ
  resetSignal : ℕ
deriving DecidableEq, Repr

/-- One scheduled `setTimeout` body: its delay, the state writes it performs,
and the argument of the `onRollComplete` invocation it makes (`none` when the
body contains no such call, as in `D10.js`). -/
structure Timeout where
  delayMs : ℚ
  endsRolling : Bool
  setsTarget : Bool
  callbackFace : Option ℤ
deriving DecidableEq, Repr

/-- The per-component constants that distinguish the six `rollDice`
implementations: face count, `ROLL_DURATION_MS`, and whether the timeout
body invokes `onRollComplete`. -/
structure RollConfig where
  faces : ℕ
  durationMs : ℚ
  invokesCallback : Bool
deriving DecidableEq, Repr

/-- Generic embedding of `rollDice`: suppressed entirely while a roll is in
flight, otherwise it samples a face index uniformly from the face sample,
stores `faceIndex + 1` as the result, stores a fresh roll direction, bumps
the reset signal, and schedules exactly one timeout for `durationMs` later. -/
def rollDice (cfg : RollConfig) (s : DieState) (d : Draws) : DieState × List Timeout :=
  if s.rolling then (s, [])
  else
    let faceIndex : ℤ := Int.floor (d.faceSample * cfg.faces)
    let faceNumber : ℤ := faceIndex + 1
    (⟨true, faceNumber,
      ⟨(d.dirX - 1/2) * 2, d.dirY * (3/2) + 6/5, (d.dirZ - 1/2) * 2⟩,
      s.resetSignal + 1⟩,
     [⟨cfg.durationMs, true, true,
       if cfg.invokesCallback then some faceNumber else none⟩])

/-- Constants of `D4.js`: 4 faces, `ROLL_DURATION_MS = 1800`, timeout invokes
`onRollComplete(faceNumber)`. -/
def d4Config : RollConfig := ⟨4, 1800, true⟩

/-- Constants of `D6.js`: 6 faces, `ROLL_DURATION_MS = 1000`, timeout invokes
`onRollComplete(faceNumber)`. -/
def d6Config : RollConfig := ⟨6, 1000, true⟩

/-- Constants of `D8.js`: 8 faces, `ROLL_DURATION_MS = 1800`, timeout invokes
`onRollComplete(faceNumber)`. -/
def d8Config : RollConfig := ⟨8, 1800, true⟩

/-- Constants of `D10.js`: 10 faces, `ROLL_DURATION_MS = 1800`; the timeout
body is `() => { setTargetQuat(target); setRolling(false); }` and contains
*no* `onRollComplete` call. -/
def d10Config : RollConfig := ⟨10, 1800, false⟩

/-- Constants of `D12.js`: 12 faces, `ROLL_DURATION_MS = 1800`, timeout
invokes `onRollComplete(faceNumber)`. -/
def d12Config : RollConfig := ⟨12, 1800, true⟩

/-- Constants of `D20.js` (src/unnamed/part_000): 20 faces,
`ROLL_DURATION_MS = 1800`, timeout invokes `onRollComplete(faceNumber)`. -/
def d20Config : RollConfig := ⟨20, 1800, true⟩

/-- The initial React state of the `D10` component
(`useState(false)`, `useState(10)`, `useState([0,0,0])`, `useState(0)`). -/
def d10InitState : DieState := ⟨false, 10, ⟨0, 0, 0⟩, 0⟩

/-- The initial React state of the `D6` component. -/
def d6InitState : DieState := ⟨false, 6, ⟨0, 0, 0⟩, 0⟩

end Dice

namespace Dice

/-! ## Settling-phase interpolation parameters (claim C9) -/

/-- Settling slerp parameter of `D4Mesh`:
`mesh.quaternion.slerp(targetQuaternion, Math.min(1, delta * 6))`. -/
def d4SettleAlpha (delta : ℚ) : ℚ := min 1 (delta * 6)

/-- Settling slerp parameter of `D6Mesh` (clamped like D4). -/
def d6SettleAlpha (delta : ℚ) : ℚ := min 1 (delta * 6)

/-- Settling slerp parameter of `D8Mesh` (clamped like D4). -/
def d8SettleAlpha (delta : ℚ) : ℚ := min 1 (delta * 6)

/-- Settling slerp parameter of `D10Mesh` (clamped like D4). -/
def d10SettleAlpha (delta : ℚ) : ℚ := min 1 (delta * 6)

/-- Settling slerp parameter of `D12Mesh`: the *unclamped*
`mesh.quaternion.slerp(targetQuaternion, delta * 6)`. -/
def d12SettleAlpha (delta : ℚ) : ℚ := delta * 6

/-- Settling slerp parameter of `D20Mesh` (clamped like D4). -/
def d20SettleAlpha (delta : ℚ) : ℚ := min 1 (delta * 6)

/-- C9: during settling, D4, D6, D8, D10 and D20 pass `min(1, 6·delta)` as the
slerp parameter, so their per-tick blend factor never exceeds 1 for any
non-negative frame delta, while D12 passes the unclamped `6·delta`, which
exceeds 1 exactly when the frame delta exceeds one sixth of a second. -/
theorem c9_settle_alpha_clamping :
    (∀ delta : ℚ, 0 ≤ delta →
      d4SettleAlpha delta ≤ 1 ∧ d6SettleAlpha delta ≤ 1 ∧ d8SettleAlpha delta ≤ 1 ∧
      d10SettleAlpha delta ≤ 1 ∧ d20SettleAlpha delta ≤ 1)
    ∧ (∀ delta : ℚ, 1 / 6 < delta → 1 < d12SettleAlpha delta) := by
  constructor
  · intro delta _
    refine ⟨min_le_left _ _, min_le_left _ _, min_le_left _ _, min_le_left _ _, min_le_left _ _⟩
  · intro delta h
    have : (1 : ℚ) = (1 / 6) * 6 := by norm_num
    rw [d12SettleAlpha, this]
    exact mul_lt_mul_of_pos_right h (by norm_num)

/-- Witness for C9 at the concrete frame delta 1 (a one-second frame):
the clamped dice blend by at most 1, D12 blends by 6. -/
theorem c9_settle_alpha_clamping_witness :
    (d4SettleAlpha 1 ≤ 1 ∧ d6SettleAlpha 1 ≤ 1 ∧ d8SettleAlpha 1 ≤ 1 ∧
      d10SettleAlpha 1 ≤ 1 ∧ d20SettleAlpha 1 ≤ 1) ∧ 1 < d12SettleAlpha 1 :=
  ⟨c9_settle_alpha_clamping.1 1 (by norm_num),
   c9_settle_alpha_clamping.2 1 (by norm_num)⟩

/-! ## Claims C1, C3, C10 about the controller -/

/-- C1 (code bug in `D10.js`): the specification requires `onRollComplete`
to be invoked exactly once per `roll()` for *every* die, but the timeout
body scheduled by `D10.js`'s `rollDice` performs no `onRollComplete` call at
all (the `onRollComplete` prop is received and forwarded to `D10Mesh` but
never invoked).  At the failing input — an idle `D10` and face sample 1/2 —
the single scheduled timeout carries no callback invocation, whereas `D6`'s
timeout at the same draws invokes the callback exactly once with face 4. -/
theorem c1_d10_never_invokes_onRollComplete :
    ((rollDice d10Config d10InitState ⟨1/2, 1/2, 1/2, 1/2⟩).2.map Timeout.callbackFace
      = [none])
    ∧ ((rollDice d6Config d6InitState ⟨1/2, 1/2, 1/2, 1/2⟩).2.map Timeout.callbackFace
      = [some 4]) := by
  constructor
  · norm_num [rollDice, d10Config, d10InitState]
  · norm_num [rollDice, d6Config, d6InitState]

/-- C3: calling `roll()` while a roll is already in flight is a silent
no-op for every die component: the guard `if (rolling) return;` leaves the
whole component state (result, roll direction, reset signal) unchanged and
schedules no timeout, so neither the in-flight target face, nor the target
orientation (which is only ever written by a scheduled timeout), nor the
duration timer is touched. -/
theorem c3_reentrant_roll_is_noop (cfg : RollConfig) (s : DieState) (d : Draws)
    (h : s.rolling = true) : rollDice cfg s d = (s, []) := by
  simp [rollDice, h]

/-- Witness for C3: a `D6` mid-roll state is returned untouched, with no
timeout scheduled. -/
theorem c3_reentrant_roll_is_noop_witness :
    rollDice d6Config ⟨true, 3, ⟨0, 0, 0⟩, 5⟩ ⟨0, 1/4, 1/2, 3/4⟩
      = (⟨true, 3, ⟨0, 0, 0⟩, 5⟩, []) :=
  c3_reentrant_roll_is_noop d6Config ⟨true, 3, ⟨0, 0, 0⟩, 5⟩ ⟨0, 1/4, 1/2, 3/4⟩ rfl

/-- C10: the reported face number is fully determined by the face sample
drawn synchronously at the top of `rollDice`: two runs from the same idle
state whose face samples agree store the same result, no matter how the
three direction samples differ (and the per-tick spin randomness and frame
deltas never reach `rollDice` at all); moreover the result state is already
set when `rollDice` returns, and every scheduled timeout fires one tumble
duration later carrying exactly that pre-set result. -/
theorem c10_result_fixed_at_roll_start (cfg : RollConfig) (s : DieState) (d dAlt : Draws)
    (hs : s.rolling = false) (hface : d.faceSample = dAlt.faceSample) :
    ((rollDice cfg s d).1.result = (rollDice cfg s dAlt).1.result)
    ∧ ((rollDice cfg s d).1.result = Int.floor (d.faceSample * cfg.faces) + 1)
    ∧ (∀ t ∈ (rollDice cfg s d).2, t.delayMs = cfg.durationMs ∧
        ∀ n, t.callbackFace = some n → n = (rollDice cfg s d).1.result) := by
  refine ⟨?_, ?_, ?_⟩
  · simp [rollDice, hs, hface]
  · simp [rollDice, hs]
  · intro t ht
    simp only [rollDice, hs, Bool.false_eq_true, if_false, List.mem_singleton] at ht
    subst ht
    refine ⟨rfl, ?_⟩
    intro n hn
    by_cases hc : cfg.invokesCallback <;> simp [hc, rollDice, hs] at hn ⊢
    omega

end Dice

namespace Dice

/-! ## Tumble-phase vertical physics (claim C4)

Every `D*Mesh` runs the same per-tick update while `rolling` is true:

```js
velocity.current.y += GRAVITY * delta * 0.6;
pos.current.addScaledVector(velocity.current, delta);
...
if (pos.current.y < -1.4 && !hasBounced.current) {
  pos.current.y = -1.4;
  velocity.current.y *= -BOUNCE_DAMPING;
  hasBounced.current = true;
}
```

with `GRAVITY = -9.8` everywhere, `BOUNCE_DAMPING = 0.05` in `D6.js` and
`0.5` in the other five components.  The horizontal components never
influence the floor test, so the model tracks the vertical components and
the `hasBounced` flag. -/

/-- Vertical slice of the tumble state: `pos.current.y`,
`velocity.current.y` and `hasBounced.current`. -/
structure TumbleY where
  posY : ℚ
  velY : ℚ
  bounced : Bool
deriving DecidableEq, Repr

/-- The candidate vertical velocity after the gravity update of one tick:
`velocity.y + GRAVITY * delta * 0.6`. -/
def tickVel (s : TumbleY) (delta : ℚ) : ℚ :=
  s.velY + (-98 / 10) * delta * (6 / 10)

/-- The candidate vertical position after the integration step of one tick
(before the floor test). -/
def tickPos (s : TumbleY) (delta : ℚ) : ℚ :=
  s.posY + tickVel s delta * delta

/-- Whether the floor-contact branch fires on this tick:
`pos.current.y < -1.4 && !hasBounced.current`. -/
def tickBounces (s : TumbleY) (delta : ℚ) : Bool :=
  decide (tickPos s delta < -7/5) && !s.bounced

/-- One `useFrame` tick of the tumble phase. -/
def tumbleStep (damping : ℚ) (s : TumbleY) (delta : ℚ) : TumbleY :=
  if tickBounces s delta then ⟨-7/5, tickVel s delta * (-damping), true⟩
  else ⟨tickPos s delta, tickVel s delta, s.bounced⟩

/-- Number of ticks on which the floor-contact branch fires over a whole
tumble phase described by its list of frame deltas. -/
def bounceCount (damping : ℚ) (s : TumbleY) : List ℚ → ℕ
  | [] => 0
  | delta :: rest =>
      (if tickBounces s delta then 1 else 0)
      + bounceCount damping (tumbleStep damping s delta) rest

/-- Whether the candidate vertical position crosses the floor threshold on
any tick of the tumble phase. -/
def anyCrossing (damping : ℚ) (s : TumbleY) : List ℚ → Bool
  | [] => false
  | delta :: rest =>
      decide (tickPos s delta < -7/5)
      || anyCrossing damping (tumbleStep damping s delta) rest

/-- Once `hasBounced` is set the floor branch can never fire again. -/
theorem bounceCount_of_bounced (damping : ℚ) (s : TumbleY) (h : s.bounced = true) :
    ∀ deltas : List ℚ, bounceCount damping s deltas = 0 := by
  intro deltas
  induction deltas generalizing s with
  | nil => rfl
  | cons delta rest ih =>
      have hb : tickBounces s delta = false := by
        simp [tickBounces, h]
      have hstep : (tumbleStep damping s delta).bounced = true := by
        simp [tumbleStep, hb, h]
      simp [bounceCount, hb, ih _ hstep]

/-- C4 core, general form: starting any tumble phase from the reset state of
a roll (`pos.y = 0`, `hasBounced = false`), over any sequence of
non-negative frame deltas the floor-contact branch fires at most once, and
it fires exactly once as soon as any tick's candidate position crosses the
floor threshold. -/
theorem bounce_at_most_once (damping : ℚ) (s : TumbleY)
    (hs : s.bounced = false) (hpos : -7/5 ≤ s.posY) (deltas : List ℚ) :
    bounceCount damping s deltas ≤ 1
    ∧ (anyCrossing damping s deltas = true → bounceCount damping s deltas = 1) := by
  induction deltas generalizing s with
  | nil => exact ⟨by simp [bounceCount], by simp [anyCrossing]⟩
  | cons delta rest ih =>
      by_cases hcross : tickPos s delta < -7/5
      · have hfire : tickBounces s delta = true := by
          simp [tickBounces, hcross, hs]
        have hstep : (tumbleStep damping s delta).bounced = true := by
          simp [tumbleStep, hfire]
        have hrest := bounceCount_of_bounced damping _ hstep rest
        constructor
        · simp [bounceCount, hfire, hrest]
        · intro _
          simp [bounceCount, hfire, hrest]
      · have hfire : tickBounces s delta = false := by
          simp [tickBounces, hcross]
        have hstep : (tumbleStep damping s delta).bounced = false := by
          simp [tumbleStep, hfire, hs]
        have hpos2 : -7/5 ≤ (tumbleStep damping s delta).posY := by
          simp only [tumbleStep, hfire, Bool.false_eq_true, if_false]
          exact le_of_not_lt hcross
        obtain ⟨ih1, ih2⟩ := ih (tumbleStep damping s delta) hstep hpos2
        constructor
        · simpa [bounceCount, hfire] using ih1
        · intro hc
          have : anyCrossing damping (tumbleStep damping s delta) rest = true := by
            simpa [anyCrossing, hcross] using hc
          simpa [bounceCount, hfire] using ih2 this

/-- C4 sign-flip fact: on the tick where the floor branch fires from a
not-yet-bounced state that has never been below the floor, the vertical
velocity is strictly negative going in and strictly positive (reversed,
scaled by the damping factor) coming out, and the position is clamped to
the threshold. -/
theorem bounce_flips_velocity (damping : ℚ) (s : TumbleY) (delta : ℚ)
    (hd : 0 < damping) (hdelta : 0 ≤ delta) (hs : s.bounced = false)
    (hpos : -7/5 ≤ s.posY) (hfire : tickBounces s delta = true) :
    tickVel s delta < 0
    ∧ 0 < (tumbleStep damping s delta).velY
    ∧ (tumbleStep damping s delta).posY = -7/5 := by
  have hcross : tickPos s delta < -7/5 := by
    have := (Bool.and_eq_true _ _).mp hfire
    exact of_decide_eq_true this.1
  have hvd : tickVel s delta * delta < 0 := by
    have : s.posY + tickVel s delta * delta < -7/5 := hcross
    linarith [hpos]
  have hvneg : tickVel s delta < 0 := by
    rcases lt_or_le (tickVel s delta) 0 with h | h
    · exact h
    · exfalso
      have : 0 ≤ tickVel s delta * delta := mul_nonneg h hdelta
      linarith
  refine ⟨hvneg, ?_, ?_⟩
  · simp only [tumbleStep, hfire, if_true]
    have : 0 < -tickVel s delta * damping := mul_pos (by linarith) hd
    linarith [this]
  · simp [tumbleStep, hfire]

/-- C4: during a single roll's tumble phase the floor-contact event occurs
at most once — after the first tick whose candidate position crosses the
floor threshold `y = -1.4` no later crossing triggers a clamp or a velocity
reversal — and on that unique tick the position is clamped to the threshold
and the vertical velocity flips from strictly negative to strictly positive
(reversal scaled by the damping factor).  Stated for both damping constants
used in the repository (0.05 for D6, 0.5 for the other five dice). -/
theorem c4_bounce_once_per_roll (damping velY0 : ℚ) (deltas : List ℚ)
    (hdamp : damping = 1/20 ∨ damping = 1/2) (hdeltas : ∀ delta ∈ deltas, 0 ≤ delta) :
    bounceCount damping ⟨0, velY0, false⟩ deltas ≤ 1
    ∧ (anyCrossing damping ⟨0, velY0, false⟩ deltas = true →
        bounceCount damping ⟨0, velY0, false⟩ deltas = 1)
    ∧ (∀ pre : TumbleY, ∀ delta ∈ deltas,
        pre.bounced = false → -7/5 ≤ pre.posY → tickBounces pre delta = true →
        tickVel pre delta < 0 ∧ 0 < (tumbleStep damping pre delta).velY
          ∧ (tumbleStep damping pre delta).posY = -7/5) := by
  have hd : 0 < damping := by rcases hdamp with h | h <;> rw [h] <;> norm_num
  obtain ⟨h1, h2⟩ := bounce_at_most_once damping ⟨0, velY0, false⟩ rfl (by norm_num) deltas
  refine ⟨h1, h2, ?_⟩
  intro pre delta hmem hb hp hf
  exact bounce_flips_velocity damping pre delta hd (hdeltas delta hmem) hb hp hf

/-- Witness for C4: a concrete three-tick tumble of a D20-style die
(damping 0.5) launched upward at 2 units/s with half-second frames: the
candidate position crosses the floor on the second tick, the branch fires
exactly once, and at that tick the velocity flips sign. -/
theorem c4_bounce_once_per_roll_witness :
    bounceCount (1/2) ⟨0, 2, false⟩ [1/2, 1/2, 1/2] ≤ 1
    ∧ (anyCrossing (1/2) ⟨0, 2, false⟩ [1/2, 1/2, 1/2] = true →
        bounceCount (1/2) ⟨0, 2, false⟩ [1/2, 1/2, 1/2] = 1)
    ∧ (∀ pre : TumbleY, ∀ delta ∈ [(1:ℚ)/2, 1/2, 1/2],
        pre.bounced = false → -7/5 ≤ pre.posY → tickBounces pre delta = true →
        tickVel pre delta < 0 ∧ 0 < (tumbleStep (1/2) pre delta).velY
          ∧ (tumbleStep (1/2) pre delta).posY = -7/5) :=
  c4_bounce_once_per_roll (1/2) 2 [1/2, 1/2, 1/2] (Or.inr rfl)
    (by intro delta h; fin_cases h <;> norm_num)

end Dice

namespace Dice

/-- Witness for C10: concrete D20 rolls from the idle state with face sample
7/10 and different direction samples store the same result 15, and the
scheduled timeout fires 1800 ms later carrying 15. -/
theorem c10_result_fixed_at_roll_start_witness :
    ((rollDice d20Config ⟨false, 20, ⟨0, 0, 0⟩, 0⟩ ⟨7/10, 1/4, 1/2, 3/4⟩).1.result
      = (rollDice d20Config ⟨false, 20, ⟨0, 0, 0⟩, 0⟩ ⟨7/10, 9/10, 1/10, 1/3⟩).1.result)
    ∧ ((rollDice d20Config ⟨false, 20, ⟨0, 0, 0⟩, 0⟩ ⟨7/10, 1/4, 1/2, 3/4⟩).1.result
      = Int.floor ((7/10 : ℚ) * (20 : ℕ)) + 1)
    ∧ (∀ t ∈ (rollDice d20Config ⟨false, 20, ⟨0, 0, 0⟩, 0⟩ ⟨7/10, 1/4, 1/2, 3/4⟩).2,
        t.delayMs = d20Config.durationMs ∧
        ∀ n, t.callbackFace = some n →
          n = (rollDice d20Config ⟨false, 20, ⟨0, 0, 0⟩, 0⟩ ⟨7/10, 1/4, 1/2, 3/4⟩).1.result) :=
  c10_result_fixed_at_roll_start d20Config ⟨false, 20, ⟨0, 0, 0⟩, 0⟩
    ⟨7/10, 1/4, 1/2, 3/4⟩ ⟨7/10, 9/10, 1/10, 1/3⟩ rfl rfl

/-! ## The `createD10Geometry` builder (claims C6, and data for C5/C7)

```js
const verts = [0, 0, 1, 0, 0, -1];
for (let i = 0; i < sides; i++) {
  const a = (i * Math.PI * 2) / sides;
  verts.push(-Math.cos(a), -Math.sin(a), 0.105 * (i % 2 ? 1 : -1));
}
const faces = [ [0,2,3], [0,3,4], ... , [1,2,11] ].flat();
```

The cosine and sine tables are taken as scalar parameters `co`/`si`
(standing for `i ↦ cos(i·2π/10)` and `i ↦ sin(i·2π/10)`). -/

/-- The raw vertex `j` pushed by `createD10Geometry` (before
`PolyhedronGeometry` projects vertices onto the unit sphere): two apexes
followed by ten equatorial vertices at height `0.105 * (i % 2 ? 1 : -1)`. -/
def d10BuilderVert {F : Type} [LinearOrderedField F] (co si : ℕ → F) (j : ℕ) : Vec3 F :=
  if j = 0 then ⟨0, 0, 1⟩
  else if j = 1 then ⟨0, 0, -1⟩
  else ⟨-(co (j - 2)), -(si (j - 2)), (21/200) * (if (j - 2) % 2 = 1 then 1 else -1)⟩

/-- The 20 triangle index rows of `createD10Geometry`, in source order. -/
def d10FaceIdx : List (ℕ × ℕ × ℕ) :=
  [(0, 2, 3), (0, 3, 4), (0, 4, 5), (0, 5, 6), (0, 6, 7),
   (0, 7, 8), (0, 8, 9), (0, 9, 10), (0, 10, 11), (0, 11, 2),
   (1, 3, 2), (1, 4, 3), (1, 5, 4), (1, 6, 5), (1, 7, 6),
   (1, 8, 7), (1, 9, 8), (1, 10, 9), (1, 11, 10), (1, 2, 11)]

/-- Triangle `k` of the D10 builder (vertex index triple). -/
def d10TriIdx (k : ℕ) : ℕ × ℕ × ℕ :=
  d10FaceIdx.getD k (0, 0, 0)

/-- The three vertex indices of a triangle, in order. -/
def triIdxList (tri : ℕ × ℕ × ℕ) : List ℕ :=
  [tri.1, tri.2.1, tri.2.2]

/-- Vertex indices shared by two triangles, in first-triangle order. -/
def sharedIdx (a b : ℕ × ℕ × ℕ) : List ℕ :=
  (triIdxList a).filter (fun i => decide (i ∈ triIdxList b))

/-- Whether a D10 builder vertex index denotes one of the ten equatorial
vertices (indices 2–11; indices 0 and 1 are the two apexes). -/
def isEquatorialIdx (i : ℕ) : Bool :=
  decide (2 ≤ i) && decide (i ≤ 11)

/-- C6 counterexample: physical face 0 of the D10 is backed by triangles 0
and 1, whose shared edge is `(0, 3)` — vertex 0 is the `(0,0,1)` apex, not
an equatorial vertex, so the two triangles of a face do *not* share an
equatorial edge (they share the kite's apex-to-equator diagonal). -/
theorem c6_counterexample :
    sharedIdx (d10TriIdx 0) (d10TriIdx 1) = [0, 3]
    ∧ ¬(∀ i ∈ sharedIdx (d10TriIdx 0) (d10TriIdx 1), isEquatorialIdx i = true) := by
  constructor
  · decide
  · intro h
    have := h 0 (by decide)
    simp [isEquatorialIdx] at this

/-- C6 amended: `createD10Geometry` places two apex vertices at `(0,0,±1)`
and ten equatorial vertices whose Z coordinate alternates between `+0.105`
and `-0.105`, yielding exactly 20 triangles that, grouped as consecutive
pairs (triangles `2f` and `2f+1` forming physical face `f`), form 10 kite
faces each backed by exactly 2 triangles — the two triangles of a face
sharing exactly one edge, which joins the face's apex (vertex 0 for the five
top faces, vertex 1 for the five bottom faces) to its middle equatorial
vertex, *not* an equatorial edge. -/
theorem c6_amended {F : Type} [LinearOrderedField F] (co si : ℕ → F) :
    (d10BuilderVert co si 0 = ⟨0, 0, 1⟩ ∧ d10BuilderVert co si 1 = ⟨0, 0, -1⟩)
    ∧ (∀ i : ℕ, i < 10 →
        (d10BuilderVert co si (i + 2)).z = (if i % 2 = 1 then (21/200 : F) else -(21/200)))
    ∧ (∀ i : ℕ, i + 3 ≤ 11 →
        (d10BuilderVert co si (i + 3)).z = -((d10BuilderVert co si (i + 2)).z))
    ∧ d10FaceIdx.length = 20
    ∧ (∀ f : ℕ, f < 10 →
        (sharedIdx (d10TriIdx (2 * f)) (d10TriIdx (2 * f + 1))).length = 2
        ∧ (sharedIdx (d10TriIdx (2 * f)) (d10TriIdx (2 * f + 1))).headD 0
            = (if f < 5 then 0 else 1)
        ∧ isEquatorialIdx ((sharedIdx (d10TriIdx (2 * f)) (d10TriIdx (2 * f + 1))).getD 1 0)
            = true) := by
  refine ⟨⟨rfl, rfl⟩, ?_, ?_, rfl, ?_⟩
  · intro i hi
    interval_cases i <;> simp [d10BuilderVert]
  · intro i hi
    have hi8 : i ≤ 8 := by omega
    interval_cases i <;> simp [d10BuilderVert]
  · intro f hf
    interval_cases f <;> exact ⟨by decide, by decide, by decide⟩

end Dice

namespace Dice

/-! ## Algebra of the orientation solver

`setFromUnitVectors` followed by `normalize()`/`applyQuaternion` is the
pipeline each solver-based die uses both for its initial pose and for the
roll target.  The lemmas below establish, purely algebraically over any
linear ordered field, that on its main branch the commanded rotation maps
the source unit vector exactly onto the target unit vector, and preserves
inner products with the target and squared norms (it is a rotation). -/

variable {F : Type} [LinearOrderedField F]

theorem applyAsUnit_expand (q : Quat F) (v : Vec3 F) :
    applyAsUnit q v = vadd v (vsmul (2 / qnormSq q)
      (vadd (vsmul q.w (vcross (qvec q) v)) (vcross (qvec q) (vcross (qvec q) v)))) := rfl

theorem sfuv_qvec (u v : Vec3 F) (hr : epsQ ≤ vdot u v + 1) :
    qvec (setFromUnitVectors u v) = vcross u v := by
  rw [setFromUnitVectors]
  rw [if_neg (not_lt.mpr hr)]
  rfl

theorem sfuv_w (u v : Vec3 F) (hr : epsQ ≤ vdot u v + 1) :
    (setFromUnitVectors u v).w = vdot u v + 1 := by
  rw [setFromUnitVectors]
  rw [if_neg (not_lt.mpr hr)]

theorem sfuv_normSq (u v : Vec3 F) (hu : vnormSq u = 1) (hv : vnormSq v = 1)
    (hr : epsQ ≤ vdot u v + 1) :
    qnormSq (setFromUnitVectors u v) = 2 * (vdot u v + 1) := by
  rw [setFromUnitVectors]
  rw [if_neg (not_lt.mpr hr)]
  obtain ⟨ux, uy, uz⟩ := u
  obtain ⟨vx, vy, vz⟩ := v
  simp only [qnormSq, vdot, vnormSq] at *
  linear_combination (vx * vx + vy * vy + vz * vz) * hu + hv

theorem solver_key (u v : Vec3 F) (hu : vnormSq u = 1) (hv : vnormSq v = 1) :
    vadd (vsmul (vdot u v + 1) (vcross (vcross u v) u))
      (vcross (vcross u v) (vcross (vcross u v) u))
      = vsmul (vdot u v + 1) (vsub v u) := by
  obtain ⟨ux, uy, uz⟩ := u
  obtain ⟨vx, vy, vz⟩ := v
  simp only [vadd, vsmul, vcross, vsub, vdot, vnormSq, Vec3.mk.injEq] at *
  refine ⟨?_, ?_, ?_⟩
  · linear_combination ((ux*vx+uy*vy+uz*vz+1) * vx - ux * (vx*vx+vy*vy+vz*vz)) * hu - ux * hv
  · linear_combination ((ux*vx+uy*vy+uz*vz+1) * vy - uy * (vx*vx+vy*vy+vz*vz)) * hu - uy * hv
  · linear_combination ((ux*vx+uy*vy+uz*vz+1) * vz - uz * (vx*vx+vy*vy+vz*vz)) * hu - uz * hv

/-- The solver's main branch maps the source unit vector exactly onto the
target unit vector. -/
theorem solver_maps_from_to (u v : Vec3 F)
    (hu : vnormSq u = 1) (hv : vnormSq v = 1) (hr : epsQ ≤ vdot u v + 1) :
    applyAsUnit (setFromUnitVectors u v) u = v := by
  have hrpos : (0 : F) < vdot u v + 1 :=
    lt_of_lt_of_le (by rw [epsQ]; positivity) hr
  have hne : vdot u v + 1 ≠ 0 := ne_of_gt hrpos
  rw [applyAsUnit_expand, sfuv_qvec u v hr, sfuv_w u v hr, sfuv_normSq u v hu hv hr,
    solver_key u v hu hv]
  obtain ⟨ux, uy, uz⟩ := u
  obtain ⟨vx, vy, vz⟩ := v
  simp only [vadd, vsmul, vsub, vdot, Vec3.mk.injEq] at *
  refine ⟨?_, ?_, ?_⟩ <;> field_simp <;> ring




theorem vdot_vadd_left (a b v : Vec3 F) : vdot (vadd a b) v = vdot a v + vdot b v := by
  obtain ⟨ax, ay, az⟩ := a
  obtain ⟨bx, by', bz⟩ := b
  obtain ⟨vx, vy, vz⟩ := v
  simp only [vadd, vdot]
  ring

theorem vdot_vsmul_left (k : F) (a v : Vec3 F) : vdot (vsmul k a) v = k * vdot a v := by
  obtain ⟨ax, ay, az⟩ := a
  obtain ⟨vx, vy, vz⟩ := v
  simp only [vsmul, vdot]
  ring

theorem vdot_vsmul_right (k : F) (a v : Vec3 F) : vdot v (vsmul k a) = k * vdot v a := by
  obtain ⟨ax, ay, az⟩ := a
  obtain ⟨vx, vy, vz⟩ := v
  simp only [vsmul, vdot]
  ring

theorem vnormSq_vadd (a b : Vec3 F) :
    vnormSq (vadd a b) = vnormSq a + 2 * vdot a b + vnormSq b := by
  obtain ⟨ax, ay, az⟩ := a
  obtain ⟨bx, by', bz⟩ := b
  simp only [vadd, vdot, vnormSq]
  ring

theorem vnormSq_vsmul (k : F) (a : Vec3 F) : vnormSq (vsmul k a) = k^2 * vnormSq a := by
  obtain ⟨ax, ay, az⟩ := a
  simp only [vsmul, vnormSq]
  ring

theorem lagrange_cross (u v : Vec3 F) :
    vnormSq (vcross u v) = vnormSq u * vnormSq v - (vdot u v)^2 := by
  obtain ⟨ux, uy, uz⟩ := u
  obtain ⟨vx, vy, vz⟩ := v
  simp only [vcross, vdot, vnormSq]
  ring

theorem solver_dot_key (u v w : Vec3 F) (hu : vnormSq u = 1) (hv : vnormSq v = 1) :
    vdot (vadd (vsmul (vdot u v + 1) (vcross (vcross u v) w))
      (vcross (vcross u v) (vcross (vcross u v) w))) v
      = (vdot u v + 1) * (vdot w u - vdot w v) := by
  obtain ⟨ux, uy, uz⟩ := u
  obtain ⟨vx, vy, vz⟩ := v
  obtain ⟨wx, wy, wz⟩ := w
  simp only [vadd, vsmul, vcross, vdot, vnormSq] at *
  linear_combination (-((vx*wx+vy*wy+vz*wz) * (vx*vx+vy*vy+vz*vz))) * hu +
    ((ux*vx+uy*vy+uz*vz+1) * (ux*wx+uy*wy+uz*wz) - (vx*wx+vy*wy+vz*wz)) * hv

/-- The rotation commanded by the solver's main branch sends the inner
product with the target back to the inner product with the source. -/
theorem solver_preserves_dot (u v w : Vec3 F)
    (hu : vnormSq u = 1) (hv : vnormSq v = 1) (hr : epsQ ≤ vdot u v + 1) :
    vdot (applyAsUnit (setFromUnitVectors u v) w) v = vdot w u := by
  have hrpos : (0 : F) < vdot u v + 1 :=
    lt_of_lt_of_le (by rw [epsQ]; positivity) hr
  have hne : vdot u v + 1 ≠ 0 := ne_of_gt hrpos
  rw [applyAsUnit_expand, sfuv_qvec u v hr, sfuv_w u v hr, sfuv_normSq u v hu hv hr,
    vdot_vadd_left, vdot_vsmul_left, solver_dot_key u v w hu hv]
  field_simp
  ring

theorem solver_norm_key_w (u v w : Vec3 F) :
    vdot w (vadd (vsmul (vdot u v + 1) (vcross (vcross u v) w))
      (vcross (vcross u v) (vcross (vcross u v) w)))
      = (vdot (vcross u v) w)^2 - vnormSq (vcross u v) * vnormSq w := by
  obtain ⟨ux, uy, uz⟩ := u
  obtain ⟨vx, vy, vz⟩ := v
  obtain ⟨wx, wy, wz⟩ := w
  simp only [vadd, vsmul, vcross, vdot, vnormSq]
  ring

theorem solver_norm_key_sq (u v w : Vec3 F) :
    vnormSq (vadd (vsmul (vdot u v + 1) (vcross (vcross u v) w))
      (vcross (vcross u v) (vcross (vcross u v) w)))
      = ((vdot u v + 1)^2 + vnormSq (vcross u v)) *
        (vnormSq (vcross u v) * vnormSq w - (vdot (vcross u v) w)^2) := by
  obtain ⟨ux, uy, uz⟩ := u
  obtain ⟨vx, vy, vz⟩ := v
  obtain ⟨wx, wy, wz⟩ := w
  simp only [vadd, vsmul, vcross, vdot, vnormSq]
  ring

/-- The rotation commanded by the solver's main branch preserves squared
norms. -/
theorem solver_preserves_normSq (u v w : Vec3 F)
    (hu : vnormSq u = 1) (hv : vnormSq v = 1) (hr : epsQ ≤ vdot u v + 1) :
    vnormSq (applyAsUnit (setFromUnitVectors u v) w) = vnormSq w := by
  have hrpos : (0 : F) < vdot u v + 1 :=
    lt_of_lt_of_le (by rw [epsQ]; positivity) hr
  have hne : vdot u v + 1 ≠ 0 := ne_of_gt hrpos
  have ha : vnormSq (vcross u v) = 1 - (vdot u v)^2 := by
    rw [lagrange_cross, hu, hv]
    ring
  rw [applyAsUnit_expand, sfuv_qvec u v hr, sfuv_w u v hr, sfuv_normSq u v hu hv hr,
    vnormSq_vadd, vnormSq_vsmul, vdot_vsmul_right, solver_norm_key_w u v w,
    solver_norm_key_sq u v w, ha]
  field_simp
  ring




theorem normalizeWith_unit (dir : Vec3 F) (rho : F)
    (hrho : rho^2 = vnormSq dir) (hne : rho ≠ 0) :
    vnormSq (normalizeWith dir rho) = 1 := by
  obtain ⟨dx, dy, dz⟩ := dir
  simp only [normalizeWith, vsmul, vnormSq] at *
  field_simp
  linear_combination -hrho

theorem forwardRef_unit : vnormSq (forwardRef : Vec3 F) = 1 := by
  simp [forwardRef, vnormSq]

/-- Quantitative non-degeneracy: if the horizontal part of `dir` is bounded
below by `c` and its squared norm above by `R2`, with `epsQ * 2 * R2 <= c`,
then the unit vector `dir / rho` is far enough from anti-parallel to the
forward direction for the solver to take its main branch. -/
theorem unit_dot_forward_bound (dir : Vec3 F) (rho c R2 : F)
    (hrho : rho^2 = vnormSq dir) (hpos : 0 < rho)
    (hxy : c ≤ dir.x^2 + dir.y^2) (hc : 0 < c) (hR : vnormSq dir ≤ R2)
    (heps : epsQ * (2 * R2) ≤ c) :
    epsQ ≤ vdot (normalizeWith dir rho) forwardRef + 1 := by
  obtain ⟨dx, dy, dz⟩ := dir
  simp only [normalizeWith, vsmul, vdot, vnormSq, forwardRef] at *
  have hne : rho ≠ 0 := ne_of_gt hpos
  have heps0 : (0 : F) < epsQ := by rw [epsQ]; norm_num
  have hfac : (rho - dz) * (rho + dz) = dx^2 + dy^2 := by linear_combination hrho
  have hzge : -rho ≤ dz := by nlinarith [sq_nonneg (dz + rho)]
  have hA : c ≤ 2 * rho * (rho + dz) := by nlinarith [sq_nonneg (rho + dz)]
  have hC : rho^2 ≤ R2 := by linarith [hrho, hR]
  have hB : epsQ * (2 * rho^2) ≤ c := by nlinarith [heps0.le]
  have hmain : epsQ * rho ≤ rho + dz := by nlinarith [hpos]
  have hrw : rho⁻¹ * dz + 1 = (rho + dz) / rho := by field_simp; ring
  have final : epsQ ≤ rho⁻¹ * dz + 1 :=
    calc epsQ = epsQ * rho / rho := (mul_div_cancel_right₀ epsQ hne).symm
      _ ≤ (rho + dz) / rho := (div_le_div_iff_of_pos_right hpos).mpr hmain
      _ = rho⁻¹ * dz + 1 := hrw.symm
  linarith [final]

/-- Master alignment lemma: under the quantitative non-degeneracy bounds the
commanded rotation `setFromUnitVectors(dir/rho, forward)` maps `dir/rho`
exactly onto the forward direction. -/
theorem solver_aligns (dir : Vec3 F) (rho c R2 : F)
    (hrho : rho^2 = vnormSq dir) (hpos : 0 < rho)
    (hxy : c ≤ dir.x^2 + dir.y^2) (hc : 0 < c) (hR : vnormSq dir ≤ R2)
    (heps : epsQ * (2 * R2) ≤ c) :
    applyAsUnit (setFromUnitVectors (normalizeWith dir rho) forwardRef)
      (normalizeWith dir rho) = forwardRef :=
  solver_maps_from_to _ _ (normalizeWith_unit dir rho hrho (ne_of_gt hpos))
    forwardRef_unit (unit_dot_forward_bound dir rho c R2 hrho hpos hxy hc hR heps)

end Dice

namespace Dice

/-! ## Triangle soup machinery shared by the solver-based dice

D4, D8, D20 and (for its mis-sourced roll target) D12 all read normals off a
non-indexed `THREE` geometry after `computeVertexNormals()`: every vertex of
a triangle receives the triangle's flat normal
`normalize((C - B) × (A - B))`, and `rollDice` then averages the three
(equal) vertex normals with `divideScalar(3)` and normalizes the average
again before handing it to `setFromUnitVectors`. -/

variable {F : Type} [LinearOrderedField F]

/-- One triangle of a non-indexed soup, vertices in buffer order. -/
structure Tri (F : Type) where
  a : Vec3 F
  b : Vec3 F
  c : Vec3 F
deriving DecidableEq, Repr

/-- The unnormalised flat normal `computeVertexNormals` derives for a
non-indexed triangle: `cb × ab` with `cb = C - B`, `ab = A - B`. -/
def triNormalDir (t : Tri F) : Vec3 F :=
  vcross (vsub t.c t.b) (vsub t.a t.b)

/-- The mean of the three vertex normals of a triangle as `rollDice` builds
it — `new THREE.Vector3().add(n0).add(n1).add(n2).divideScalar(3)` — where
each vertex normal is the flat normal divided by its length `rho`. -/
def rollAvgNormal (t : Tri F) (rho : F) : Vec3 F :=
  let n := normalizeWith (triNormalDir t) rho
  vsmul (1/3) (vadd (vadd (vadd ⟨0, 0, 0⟩ n) n) n)

/-- The face normal `rollDice` hands to `setFromUnitVectors`: the averaged
vertex normal, normalized again (divided by its length `ell`). -/
def rollFaceNormal (t : Tri F) (rho ell : F) : Vec3 F :=
  normalizeWith (rollAvgNormal t rho) ell

theorem rollAvgNormal_eq (t : Tri F) (rho : F) :
    rollAvgNormal t rho = normalizeWith (triNormalDir t) rho := by
  obtain ⟨⟨ax, ay, az⟩, ⟨bx, by', bz⟩, ⟨cx, cy, cz⟩⟩ := t
  simp only [rollAvgNormal, normalizeWith, triNormalDir, vcross, vsub, vadd, vsmul,
    Vec3.mk.injEq]
  refine ⟨by ring, by ring, by ring⟩

theorem vsmul_one (v : Vec3 F) : vsmul 1 v = v := by
  obtain ⟨vx, vy, vz⟩ := v
  simp [vsmul]

/-- Averaging three copies of a unit vector and re-normalising returns the
unit vector itself: the second `normalize()` divides by `ell = 1`. -/
theorem rollFaceNormal_eq (t : Tri F) (rho ell : F)
    (hrho : rho^2 = vnormSq (triNormalDir t)) (hrpos : 0 < rho)
    (hell : ell^2 = vnormSq (rollAvgNormal t rho)) (hepos : 0 < ell) :
    rollFaceNormal t rho ell = normalizeWith (triNormalDir t) rho := by
  have hunit : vnormSq (rollAvgNormal t rho) = 1 := by
    rw [rollAvgNormal_eq]
    exact normalizeWith_unit _ rho hrho (ne_of_gt hrpos)
  have hell1 : ell = 1 := by
    have hsq : ell^2 = 1 := by rw [hell, hunit]
    have hfac : (ell - 1) * (ell + 1) = 0 := by linear_combination hsq
    rcases mul_eq_zero.mp hfac with h | h
    · linarith
    · linarith
  rw [rollFaceNormal, rollAvgNormal_eq, hell1]
  rw [normalizeWith, inv_one, vsmul_one]

/-- Alignment of a solver-based die face: under the exact defining equations
of the two normalisation lengths and the quantitative non-degeneracy bounds,
the target quaternion `setFromUnitVectors(faceNormal, forward)` maps the
face normal it was computed from exactly onto the forward direction. -/
theorem aligned_roll_normal (t : Tri F) (rho ell c R2 : F)
    (hrho : rho^2 = vnormSq (triNormalDir t)) (hrpos : 0 < rho)
    (hell : ell^2 = vnormSq (rollAvgNormal t rho)) (hepos : 0 < ell)
    (hxy : c ≤ (triNormalDir t).x^2 + (triNormalDir t).y^2) (hc : 0 < c)
    (hR : vnormSq (triNormalDir t) ≤ R2) (heps : epsQ * (2 * R2) ≤ c) :
    applyAsUnit (setFromUnitVectors (rollFaceNormal t rho ell) forwardRef)
      (rollFaceNormal t rho ell) = forwardRef := by
  rw [rollFaceNormal_eq t rho ell hrho hrpos hell hepos]
  exact solver_aligns (triNormalDir t) rho c R2 hrho hrpos hxy hc hR heps

/-! ## D4: `THREE.TetrahedronGeometry(1)`

Raw vertex and index tables of the tetrahedron builder; every raw vertex has
length √3, so projection onto the unit sphere scales all of them by the
common factor `u = 1/√3` (hypotheses `0 < u`, `3 * u^2 = 1`). -/

/-- Vertex `j` of the unit-sphere tetrahedron, `u` standing for `1/√3`. -/
def tetraVert (u : F) (j : ℕ) : Vec3 F :=
  vsmul u (([⟨1, 1, 1⟩, ⟨-1, -1, 1⟩, ⟨-1, 1, -1⟩, ⟨1, -1, -1⟩] : List (Vec3 F)).getD j ⟨0, 0, 0⟩)

/-- Triangle index rows of `TetrahedronGeometry`, in source order. -/
def tetraIdx : List (ℕ × ℕ × ℕ) := [(2, 1, 0), (0, 3, 2), (1, 3, 0), (2, 3, 1)]

/-- Triangle `i` of the non-indexed D4 geometry. -/
def d4Tri (u : F) (i : ℕ) : Tri F :=
  let row := tetraIdx.getD i (0, 0, 0)
  ⟨tetraVert u row.1, tetraVert u row.2.1, tetraVert u row.2.2⟩

/-- The target quaternion `D4.js`'s `rollDice` computes for face index `i`
(from a fresh `TetrahedronGeometry`, which rebuilds the same triangles as
the mesh geometry). -/
def d4TargetQuat (u rho ell : F) (i : ℕ) : Quat F :=
  setFromUnitVectors (rollFaceNormal (d4Tri u i) rho ell) forwardRef

/-- The initial quaternion of `D4.js`: the target of face index 3
("face 4 faces the camera"). -/
def d4InitialQuat (u rho ell : F) : Quat F := d4TargetQuat u rho ell 3

/-- Per-face norm facts for the D4: every flat normal has squared length
`48·u⁴` and horizontal part exactly `32·u⁴`. -/
theorem d4_face_bounds (u : F) (i : ℕ) (hi : i < 4) :
    vnormSq (triNormalDir (d4Tri u i)) = 48 * u^4
    ∧ (triNormalDir (d4Tri u i)).x^2 + (triNormalDir (d4Tri u i)).y^2 = 32 * u^4 := by
  interval_cases i <;>
    exact ⟨by simp [d4Tri, tetraVert, tetraIdx, triNormalDir, vcross, vsub, vsmul, vnormSq]; ring,
      by simp [d4Tri, tetraVert, tetraIdx, triNormalDir, vcross, vsub, vsmul]; ring⟩

/-- Every D4 roll target aligns its face normal exactly with the forward
direction. -/
theorem d4_target_aligns (u rho ell : F) (i : ℕ) (hi : i < 4) (hu : 0 < u)
    (hrho : rho^2 = vnormSq (triNormalDir (d4Tri u i))) (hrpos : 0 < rho)
    (hell : ell^2 = vnormSq (rollAvgNormal (d4Tri u i) rho)) (hepos : 0 < ell) :
    applyAsUnit (d4TargetQuat u rho ell i) (rollFaceNormal (d4Tri u i) rho ell)
      = forwardRef := by
  obtain ⟨hns, hxy⟩ := d4_face_bounds u i hi
  have hu4 : (0 : F) < u^4 := by positivity
  refine aligned_roll_normal _ rho ell (32 * u^4) (48 * u^4) hrho hrpos hell hepos
    (le_of_eq hxy.symm) (by positivity) (le_of_eq hns) ?_
  rw [epsQ]
  nlinarith [hu4]

/-! ## D8: `THREE.OctahedronGeometry(1)`

The six octahedron vertices are already unit length, so projection onto the
unit sphere leaves them unchanged and the geometry is exactly rational. -/

/-- Vertex `j` of the octahedron. -/
def octaVert (j : ℕ) : Vec3 F :=
  ([⟨1, 0, 0⟩, ⟨-1, 0, 0⟩, ⟨0, 1, 0⟩, ⟨0, -1, 0⟩, ⟨0, 0, 1⟩, ⟨0, 0, -1⟩] :
    List (Vec3 F)).getD j ⟨0, 0, 0⟩

/-- Triangle index rows of `OctahedronGeometry`, in source order. -/
def octaIdx : List (ℕ × ℕ × ℕ) :=
  [(0, 2, 4), (0, 4, 3), (0, 3, 5), (0, 5, 2), (1, 2, 5), (1, 5, 3), (1, 3, 4), (1, 4, 2)]

/-- Triangle `i` of the non-indexed D8 geometry. -/
def d8Tri (i : ℕ) : Tri F :=
  let row := octaIdx.getD i (0, 0, 0)
  ⟨octaVert row.1, octaVert row.2.1, octaVert row.2.2⟩

/-- The target quaternion `D8.js`'s `rollDice` computes for face index `i`. -/
def d8TargetQuat (rho ell : F) (i : ℕ) : Quat F :=
  setFromUnitVectors (rollFaceNormal (d8Tri i) rho ell) forwardRef

/-- The initial quaternion of `D8.js`: the target of face index 7
("side 8 facing camera"). -/
def d8InitialQuat (rho ell : F) : Quat F := d8TargetQuat rho ell 7

/-- Per-face norm facts for the D8: every flat normal has squared length 3
and horizontal part exactly 2. -/
theorem d8_face_bounds (i : ℕ) (hi : i < 8) :
    vnormSq (triNormalDir (d8Tri i : Tri F)) = 3
    ∧ (triNormalDir (d8Tri i : Tri F)).x^2 + (triNormalDir (d8Tri i : Tri F)).y^2 = 2 := by
  interval_cases i <;>
    exact ⟨by norm_num [d8Tri, octaVert, octaIdx, triNormalDir, vcross, vsub, vnormSq],
      by norm_num [d8Tri, octaVert, octaIdx, triNormalDir, vcross, vsub]⟩

/-- Every D8 roll target aligns its face normal exactly with the forward
direction. -/
theorem d8_target_aligns (rho ell : F) (i : ℕ) (hi : i < 8)
    (hrho : rho^2 = vnormSq (triNormalDir (d8Tri i : Tri F))) (hrpos : 0 < rho)
    (hell : ell^2 = vnormSq (rollAvgNormal (d8Tri i) rho)) (hepos : 0 < ell) :
    applyAsUnit (d8TargetQuat rho ell i) (rollFaceNormal (d8Tri i) rho ell)
      = forwardRef := by
  obtain ⟨hns, hxy⟩ := d8_face_bounds (F := F) i hi
  refine aligned_roll_normal _ rho ell 2 3 hrho hrpos hell hepos
    (le_of_eq hxy.symm) (by norm_num) (le_of_eq hns) ?_
  rw [epsQ]
  norm_num

end Dice

namespace Dice

/-! ## D6: `THREE.BoxGeometry(1,1,1)` with an Euler orientation table

`D6.js` uses no solver: `getFaceQuaternion` maps each face number to a fixed
Euler rotation.  `BoxGeometry`'s material groups are ordered
`+x, -x, +y, -y, +z, -z`, so the die face numbered `n` (material `n-1`) has
the outward normal below.  The half-angle cosines/sines of the table's
angles `0, ±π/2, π` are `1, 0` and `h = √2/2` (hypothesis `2·h² = 1`). -/

variable {F : Type} [LinearOrderedField F]

/-- Outward normal of the box face numbered `n` (material index `n-1`). -/
def d6FaceNormal (n : ℕ) : Vec3 F :=
  ([⟨1, 0, 0⟩, ⟨-1, 0, 0⟩, ⟨0, 1, 0⟩, ⟨0, -1, 0⟩, ⟨0, 0, 1⟩, ⟨0, 0, -1⟩] :
    List (Vec3 F)).getD (n - 1) ⟨0, 0, 0⟩

/-- `getFaceQuaternion(n)` of `D6.js`: `setFromEuler` applied to the
orientation table `1 ↦ (0,-π/2,0)`, `2 ↦ (0,π/2,0)`, `3 ↦ (π/2,0,0)`,
`4 ↦ (-π/2,0,0)`, `5 ↦ (0,0,0)`, `6 ↦ (π,0,0)`, defaulting to face 1. -/
def d6FaceQuat (h : F) (n : ℕ) : Quat F :=
  if n = 1 then quatFromEulerXYZ 1 0 h (-h) 1 0
  else if n = 2 then quatFromEulerXYZ 1 0 h h 1 0
  else if n = 3 then quatFromEulerXYZ h h 1 0 1 0
  else if n = 4 then quatFromEulerXYZ h (-h) 1 0 1 0
  else if n = 5 then quatFromEulerXYZ 1 0 1 0 1 0
  else if n = 6 then quatFromEulerXYZ 0 1 1 0 1 0
  else quatFromEulerXYZ 1 0 h (-h) 1 0

/-- The initial quaternion of `D6.js`: `getFaceQuaternion(6)`
("face 6 faces the user initially", Euler rotation π about X). -/
def d6InitialQuat (h : F) : Quat F := d6FaceQuat h 6

/-- Every entry of the D6 Euler table maps the corresponding box face
normal exactly onto the forward direction. -/
theorem d6_face_aligns (h : F) (hh : 2 * h^2 = 1) (n : ℕ) (hn1 : 1 ≤ n) (hn6 : n ≤ 6) :
    applyAsUnit (d6FaceQuat h n) (d6FaceNormal n) = forwardRef := by
  have hq : qnormSq (d6FaceQuat h n) = 1 := by
    interval_cases n <;>
      · simp only [d6FaceQuat, quatFromEulerXYZ, qnormSq]
        norm_num
        try linear_combination hh
  rw [applyAsUnit_expand, hq]
  interval_cases n
  · simp only [d6FaceQuat, quatFromEulerXYZ, d6FaceNormal, qvec, vcross, vadd, vsmul,
      forwardRef, List.getD, Vec3.mk.injEq]
    norm_num
    refine ⟨by linear_combination -hh, by linear_combination hh⟩
  · simp only [d6FaceQuat, quatFromEulerXYZ, d6FaceNormal, qvec, vcross, vadd, vsmul,
      forwardRef, List.getD, Vec3.mk.injEq]
    norm_num
    refine ⟨by linear_combination hh, by linear_combination hh⟩
  · simp only [d6FaceQuat, quatFromEulerXYZ, d6FaceNormal, qvec, vcross, vadd, vsmul,
      forwardRef, List.getD, Vec3.mk.injEq]
    norm_num
    refine ⟨by linear_combination -hh, by linear_combination hh⟩
  · simp only [d6FaceQuat, quatFromEulerXYZ, d6FaceNormal, qvec, vcross, vadd, vsmul,
      forwardRef, List.getD, Vec3.mk.injEq]
    norm_num
    refine ⟨by linear_combination hh, by linear_combination hh⟩
  · simp only [d6FaceQuat, quatFromEulerXYZ, d6FaceNormal, qvec, vcross, vadd, vsmul,
      forwardRef, List.getD, Vec3.mk.injEq]
    norm_num
  · simp only [d6FaceQuat, quatFromEulerXYZ, d6FaceNormal, qvec, vcross, vadd, vsmul,
      forwardRef, List.getD, Vec3.mk.injEq]
    norm_num

end Dice

namespace Dice

/-! ## D20: `THREE.IcosahedronGeometry(1)`

Raw vertex and index tables of the icosahedron builder (`t` standing for the
golden ratio `(1+√5)/2`, hypotheses `t² = t + 1`, `1 < t`).  Every raw
vertex has length `√(1+t²)`, so projection onto the unit sphere scales all
of them by the common factor `k = 1/√(1+t²)` (hypothesis `0 < k`). -/

variable {F : Type} [LinearOrderedField F]

/-- Raw vertex `j` of `IcosahedronGeometry` (before the projection onto the
unit sphere), in source order. -/
def icosaVertRaw (t : F) : ℕ → Vec3 F
  | 0 => ⟨-1, t, 0⟩
  | 1 => ⟨1, t, 0⟩
  | 2 => ⟨-1, -t, 0⟩
  | 3 => ⟨1, -t, 0⟩
  | 4 => ⟨0, -1, t⟩
  | 5 => ⟨0, 1, t⟩
  | 6 => ⟨0, -1, -t⟩
  | 7 => ⟨0, 1, -t⟩
  | 8 => ⟨t, 0, -1⟩
  | 9 => ⟨t, 0, 1⟩
  | 10 => ⟨-t, 0, -1⟩
  | 11 => ⟨-t, 0, 1⟩
  | _ => ⟨0, 0, 0⟩

/-- Vertex `j` of the unit-sphere icosahedron, `k` standing for `1/√(1+t²)`. -/
def icosaVert (t k : F) (j : ℕ) : Vec3 F := vsmul k (icosaVertRaw t j)

/-- Triangle index row `i` of `IcosahedronGeometry`, in source order. -/
def icosaIdx : ℕ → ℕ × ℕ × ℕ
  | 0 => (0, 11, 5)
  | 1 => (0, 5, 1)
  | 2 => (0, 1, 7)
  | 3 => (0, 7, 10)
  | 4 => (0, 10, 11)
  | 5 => (1, 5, 9)
  | 6 => (5, 11, 4)
  | 7 => (11, 10, 2)
  | 8 => (10, 7, 6)
  | 9 => (7, 1, 8)
  | 10 => (3, 9, 4)
  | 11 => (3, 4, 2)
  | 12 => (3, 2, 6)
  | 13 => (3, 6, 8)
  | 14 => (3, 8, 9)
  | 15 => (4, 9, 5)
  | 16 => (2, 4, 11)
  | 17 => (6, 2, 10)
  | 18 => (8, 6, 7)
  | 19 => (9, 8, 1)
  | _ => (0, 0, 0)

/-- Triangle `i` of the non-indexed D20 geometry. -/
def icosaTri (t k : F) (i : ℕ) : Tri F :=
  ⟨icosaVert t k (icosaIdx i).1, icosaVert t k (icosaIdx i).2.1, icosaVert t k (icosaIdx i).2.2⟩

/-- The target quaternion the D20's `rollDice` computes for face index `i`
(from a fresh `IcosahedronGeometry`, the same triangles as the mesh). -/
def d20TargetQuat (t k rho ell : F) (i : ℕ) : Quat F :=
  setFromUnitVectors (rollFaceNormal (icosaTri t k i) rho ell) forwardRef

/-- The initial quaternion of the D20: the target of face index 19
("side 20 facing camera"). -/
def d20InitialQuat (t k rho ell : F) : Quat F := d20TargetQuat t k rho ell 19

/-- Interval bounds for the golden ratio from its defining equation. -/
theorem golden_bounds (t : F) (hT : t^2 = t + 1) (ht1 : 1 < t) :
    3/2 < t ∧ t < 17/10 := by
  constructor <;> nlinarith

set_option maxHeartbeats 3200000 in
/-- Per-face norm facts for the D20: every flat normal has squared length
`12·k⁴` and horizontal part at least `(8-4t)·k⁴`. -/
theorem d20_face_bounds (t k : F) (hT : t^2 = t + 1) (ht1 : 1 < t) (i : ℕ) (hi : i < 20) :
    vnormSq (triNormalDir (icosaTri t k i)) = 12 * k^4
    ∧ (8 - 4*t) * k^4 ≤ (triNormalDir (icosaTri t k i)).x^2
        + (triNormalDir (icosaTri t k i)).y^2 := by
  have hk4 : (0 : F) ≤ k^4 := by positivity
  obtain ⟨htlow, htup⟩ := golden_bounds t hT ht1
  interval_cases i
  · refine ⟨?_, ?_⟩
    · simp only [icosaTri, icosaVert, icosaVertRaw, icosaIdx, triNormalDir, vcross, vsub, vsmul, vnormSq]
      linear_combination (3 * t^2 * k^4 + (-3) * t * k^4 + 9 * k^4) * hT
    · have hE : (triNormalDir (icosaTri t k 0)).x^2 + (triNormalDir (icosaTri t k 0)).y^2
          = (8 * k^4) := by
        simp only [icosaTri, icosaVert, icosaVertRaw, icosaIdx, triNormalDir, vcross, vsub, vsmul, vnormSq]
        linear_combination (2 * t^2 * k^4 + (-2) * t * k^4 + 6 * k^4) * hT
      rw [hE]
      have hp : (0 : F) ≤ (4 * t) * k^4 := mul_nonneg (by linarith) hk4
      linarith [hp]
  · refine ⟨?_, ?_⟩
    · simp only [icosaTri, icosaVert, icosaVertRaw, icosaIdx, triNormalDir, vcross, vsub, vsmul, vnormSq]
      linear_combination (8 * k^4) * hT
    · have hE : (triNormalDir (icosaTri t k 1)).x^2 + (triNormalDir (icosaTri t k 1)).y^2
          = (4 * t * k^4 + 4 * k^4) := by
        simp only [icosaTri, icosaVert, icosaVertRaw, icosaIdx, triNormalDir, vcross, vsub, vsmul, vnormSq]
        linear_combination (4 * k^4) * hT
      rw [hE]
      have hp : (0 : F) ≤ (8 * t + (-4)) * k^4 := mul_nonneg (by linarith) hk4
      linarith [hp]
  · refine ⟨?_, ?_⟩
    · simp only [icosaTri, icosaVert, icosaVertRaw, icosaIdx, triNormalDir, vcross, vsub, vsmul, vnormSq]
      linear_combination (8 * k^4) * hT
    · have hE : (triNormalDir (icosaTri t k 2)).x^2 + (triNormalDir (icosaTri t k 2)).y^2
          = (4 * t * k^4 + 4 * k^4) := by
        simp only [icosaTri, icosaVert, icosaVertRaw, icosaIdx, triNormalDir, vcross, vsub, vsmul, vnormSq]
        linear_combination (4 * k^4) * hT
      rw [hE]
      have hp : (0 : F) ≤ (8 * t + (-4)) * k^4 := mul_nonneg (by linarith) hk4
      linarith [hp]
  · refine ⟨?_, ?_⟩
    · simp only [icosaTri, icosaVert, icosaVertRaw, icosaIdx, triNormalDir, vcross, vsub, vsmul, vnormSq]
      linear_combination (3 * t^2 * k^4 + (-3) * t * k^4 + 9 * k^4) * hT
    · have hE : (triNormalDir (icosaTri t k 3)).x^2 + (triNormalDir (icosaTri t k 3)).y^2
          = (8 * k^4) := by
        simp only [icosaTri, icosaVert, icosaVertRaw, icosaIdx, triNormalDir, vcross, vsub, vsmul, vnormSq]
        linear_combination (2 * t^2 * k^4 + (-2) * t * k^4 + 6 * k^4) * hT
      rw [hE]
      have hp : (0 : F) ≤ (4 * t) * k^4 := mul_nonneg (by linarith) hk4
      linarith [hp]
  · refine ⟨?_, ?_⟩
    · simp only [icosaTri, icosaVert, icosaVertRaw, icosaIdx, triNormalDir, vcross, vsub, vsmul, vnormSq]
      linear_combination (8 * k^4) * hT
    · have hE : (triNormalDir (icosaTri t k 4)).x^2 + (triNormalDir (icosaTri t k 4)).y^2
          = (12 * k^4) := by
        simp only [icosaTri, icosaVert, icosaVertRaw, icosaIdx, triNormalDir, vcross, vsub, vsmul, vnormSq]
        linear_combination (8 * k^4) * hT
      rw [hE]
      have hp : (0 : F) ≤ (4 * t + 4) * k^4 := mul_nonneg (by linarith) hk4
      linarith [hp]
  · refine ⟨?_, ?_⟩
    · simp only [icosaTri, icosaVert, icosaVertRaw, icosaIdx, triNormalDir, vcross, vsub, vsmul, vnormSq]
      linear_combination (3 * t^2 * k^4 + (-3) * t * k^4 + 9 * k^4) * hT
    · have hE : (triNormalDir (icosaTri t k 5)).x^2 + (triNormalDir (icosaTri t k 5)).y^2
          = (8 * k^4) := by
        simp only [icosaTri, icosaVert, icosaVertRaw, icosaIdx, triNormalDir, vcross, vsub, vsmul, vnormSq]
        linear_combination (2 * t^2 * k^4 + (-2) * t * k^4 + 6 * k^4) * hT
      rw [hE]
      have hp : (0 : F) ≤ (4 * t) * k^4 := mul_nonneg (by linarith) hk4
      linarith [hp]
  · refine ⟨?_, ?_⟩
    · simp only [icosaTri, icosaVert, icosaVertRaw, icosaIdx, triNormalDir, vcross, vsub, vsmul, vnormSq]
      linear_combination (8 * k^4) * hT
    · have hE : (triNormalDir (icosaTri t k 6)).x^2 + (triNormalDir (icosaTri t k 6)).y^2
          = ((-4) * t * k^4 + 8 * k^4) := by
        simp only [icosaTri, icosaVert, icosaVertRaw, icosaIdx, triNormalDir, vcross, vsub, vsmul, vnormSq]
        linear_combination (4 * k^4) * hT
      rw [hE]
      have hp : (0 : F) ≤ (0) * k^4 := mul_nonneg (by linarith) hk4
      linarith [hp]
  · refine ⟨?_, ?_⟩
    · simp only [icosaTri, icosaVert, icosaVertRaw, icosaIdx, triNormalDir, vcross, vsub, vsmul, vnormSq]
      linear_combination (8 * k^4) * hT
    · have hE : (triNormalDir (icosaTri t k 7)).x^2 + (triNormalDir (icosaTri t k 7)).y^2
          = (12 * k^4) := by
        simp only [icosaTri, icosaVert, icosaVertRaw, icosaIdx, triNormalDir, vcross, vsub, vsmul, vnormSq]
        linear_combination (8 * k^4) * hT
      rw [hE]
      have hp : (0 : F) ≤ (4 * t + 4) * k^4 := mul_nonneg (by linarith) hk4
      linarith [hp]
  · refine ⟨?_, ?_⟩
    · simp only [icosaTri, icosaVert, icosaVertRaw, icosaIdx, triNormalDir, vcross, vsub, vsmul, vnormSq]
      linear_combination (8 * k^4) * hT
    · have hE : (triNormalDir (icosaTri t k 8)).x^2 + (triNormalDir (icosaTri t k 8)).y^2
          = ((-4) * t * k^4 + 8 * k^4) := by
        simp only [icosaTri, icosaVert, icosaVertRaw, icosaIdx, triNormalDir, vcross, vsub, vsmul, vnormSq]
        linear_combination (4 * k^4) * hT
      rw [hE]
      have hp : (0 : F) ≤ (0) * k^4 := mul_nonneg (by linarith) hk4
      linarith [hp]
  · refine ⟨?_, ?_⟩
    · simp only [icosaTri, icosaVert, icosaVertRaw, icosaIdx, triNormalDir, vcross, vsub, vsmul, vnormSq]
      linear_combination (3 * t^2 * k^4 + (-3) * t * k^4 + 9 * k^4) * hT
    · have hE : (triNormalDir (icosaTri t k 9)).x^2 + (triNormalDir (icosaTri t k 9)).y^2
          = (8 * k^4) := by
        simp only [icosaTri, icosaVert, icosaVertRaw, icosaIdx, triNormalDir, vcross, vsub, vsmul, vnormSq]
        linear_combination (2 * t^2 * k^4 + (-2) * t * k^4 + 6 * k^4) * hT
      rw [hE]
      have hp : (0 : F) ≤ (4 * t) * k^4 := mul_nonneg (by linarith) hk4
      linarith [hp]
  · refine ⟨?_, ?_⟩
    · simp only [icosaTri, icosaVert, icosaVertRaw, icosaIdx, triNormalDir, vcross, vsub, vsmul, vnormSq]
      linear_combination (3 * t^2 * k^4 + (-3) * t * k^4 + 9 * k^4) * hT
    · have hE : (triNormalDir (icosaTri t k 10)).x^2 + (triNormalDir (icosaTri t k 10)).y^2
          = (8 * k^4) := by
        simp only [icosaTri, icosaVert, icosaVertRaw, icosaIdx, triNormalDir, vcross, vsub, vsmul, vnormSq]
        linear_combination (2 * t^2 * k^4 + (-2) * t * k^4 + 6 * k^4) * hT
      rw [hE]
      have hp : (0 : F) ≤ (4 * t) * k^4 := mul_nonneg (by linarith) hk4
      linarith [hp]
  · refine ⟨?_, ?_⟩
    · simp only [icosaTri, icosaVert, icosaVertRaw, icosaIdx, triNormalDir, vcross, vsub, vsmul, vnormSq]
      linear_combination (8 * k^4) * hT
    · have hE : (triNormalDir (icosaTri t k 11)).x^2 + (triNormalDir (icosaTri t k 11)).y^2
          = (4 * t * k^4 + 4 * k^4) := by
        simp only [icosaTri, icosaVert, icosaVertRaw, icosaIdx, triNormalDir, vcross, vsub, vsmul, vnormSq]
        linear_combination (4 * k^4) * hT
      rw [hE]
      have hp : (0 : F) ≤ (8 * t + (-4)) * k^4 := mul_nonneg (by linarith) hk4
      linarith [hp]
  · refine ⟨?_, ?_⟩
    · simp only [icosaTri, icosaVert, icosaVertRaw, icosaIdx, triNormalDir, vcross, vsub, vsmul, vnormSq]
      linear_combination (8 * k^4) * hT
    · have hE : (triNormalDir (icosaTri t k 12)).x^2 + (triNormalDir (icosaTri t k 12)).y^2
          = (4 * t * k^4 + 4 * k^4) := by
        simp only [icosaTri, icosaVert, icosaVertRaw, icosaIdx, triNormalDir, vcross, vsub, vsmul, vnormSq]
        linear_combination (4 * k^4) * hT
      rw [hE]
      have hp : (0 : F) ≤ (8 * t + (-4)) * k^4 := mul_nonneg (by linarith) hk4
      linarith [hp]
  · refine ⟨?_, ?_⟩
    · simp only [icosaTri, icosaVert, icosaVertRaw, icosaIdx, triNormalDir, vcross, vsub, vsmul, vnormSq]
      linear_combination (3 * t^2 * k^4 + (-3) * t * k^4 + 9 * k^4) * hT
    · have hE : (triNormalDir (icosaTri t k 13)).x^2 + (triNormalDir (icosaTri t k 13)).y^2
          = (8 * k^4) := by
        simp only [icosaTri, icosaVert, icosaVertRaw, icosaIdx, triNormalDir, vcross, vsub, vsmul, vnormSq]
        linear_combination (2 * t^2 * k^4 + (-2) * t * k^4 + 6 * k^4) * hT
      rw [hE]
      have hp : (0 : F) ≤ (4 * t) * k^4 := mul_nonneg (by linarith) hk4
      linarith [hp]
  · refine ⟨?_, ?_⟩
    · simp only [icosaTri, icosaVert, icosaVertRaw, icosaIdx, triNormalDir, vcross, vsub, vsmul, vnormSq]
      linear_combination (8 * k^4) * hT
    · have hE : (triNormalDir (icosaTri t k 14)).x^2 + (triNormalDir (icosaTri t k 14)).y^2
          = (12 * k^4) := by
        simp only [icosaTri, icosaVert, icosaVertRaw, icosaIdx, triNormalDir, vcross, vsub, vsmul, vnormSq]
        linear_combination (8 * k^4) * hT
      rw [hE]
      have hp : (0 : F) ≤ (4 * t + 4) * k^4 := mul_nonneg (by linarith) hk4
      linarith [hp]
  · refine ⟨?_, ?_⟩
    · simp only [icosaTri, icosaVert, icosaVertRaw, icosaIdx, triNormalDir, vcross, vsub, vsmul, vnormSq]
      linear_combination (8 * k^4) * hT
    · have hE : (triNormalDir (icosaTri t k 15)).x^2 + (triNormalDir (icosaTri t k 15)).y^2
          = ((-4) * t * k^4 + 8 * k^4) := by
        simp only [icosaTri, icosaVert, icosaVertRaw, icosaIdx, triNormalDir, vcross, vsub, vsmul, vnormSq]
        linear_combination (4 * k^4) * hT
      rw [hE]
      have hp : (0 : F) ≤ (0) * k^4 := mul_nonneg (by linarith) hk4
      linarith [hp]
  · refine ⟨?_, ?_⟩
    · simp only [icosaTri, icosaVert, icosaVertRaw, icosaIdx, triNormalDir, vcross, vsub, vsmul, vnormSq]
      linear_combination (3 * t^2 * k^4 + (-3) * t * k^4 + 9 * k^4) * hT
    · have hE : (triNormalDir (icosaTri t k 16)).x^2 + (triNormalDir (icosaTri t k 16)).y^2
          = (8 * k^4) := by
        simp only [icosaTri, icosaVert, icosaVertRaw, icosaIdx, triNormalDir, vcross, vsub, vsmul, vnormSq]
        linear_combination (2 * t^2 * k^4 + (-2) * t * k^4 + 6 * k^4) * hT
      rw [hE]
      have hp : (0 : F) ≤ (4 * t) * k^4 := mul_nonneg (by linarith) hk4
      linarith [hp]
  · refine ⟨?_, ?_⟩
    · simp only [icosaTri, icosaVert, icosaVertRaw, icosaIdx, triNormalDir, vcross, vsub, vsmul, vnormSq]
      linear_combination (3 * t^2 * k^4 + (-3) * t * k^4 + 9 * k^4) * hT
    · have hE : (triNormalDir (icosaTri t k 17)).x^2 + (triNormalDir (icosaTri t k 17)).y^2
          = (8 * k^4) := by
        simp only [icosaTri, icosaVert, icosaVertRaw, icosaIdx, triNormalDir, vcross, vsub, vsmul, vnormSq]
        linear_combination (2 * t^2 * k^4 + (-2) * t * k^4 + 6 * k^4) * hT
      rw [hE]
      have hp : (0 : F) ≤ (4 * t) * k^4 := mul_nonneg (by linarith) hk4
      linarith [hp]
  · refine ⟨?_, ?_⟩
    · simp only [icosaTri, icosaVert, icosaVertRaw, icosaIdx, triNormalDir, vcross, vsub, vsmul, vnormSq]
      linear_combination (8 * k^4) * hT
    · have hE : (triNormalDir (icosaTri t k 18)).x^2 + (triNormalDir (icosaTri t k 18)).y^2
          = ((-4) * t * k^4 + 8 * k^4) := by
        simp only [icosaTri, icosaVert, icosaVertRaw, icosaIdx, triNormalDir, vcross, vsub, vsmul, vnormSq]
        linear_combination (4 * k^4) * hT
      rw [hE]
      have hp : (0 : F) ≤ (0) * k^4 := mul_nonneg (by linarith) hk4
      linarith [hp]
  · refine ⟨?_, ?_⟩
    · simp only [icosaTri, icosaVert, icosaVertRaw, icosaIdx, triNormalDir, vcross, vsub, vsmul, vnormSq]
      linear_combination (8 * k^4) * hT
    · have hE : (triNormalDir (icosaTri t k 19)).x^2 + (triNormalDir (icosaTri t k 19)).y^2
          = (12 * k^4) := by
        simp only [icosaTri, icosaVert, icosaVertRaw, icosaIdx, triNormalDir, vcross, vsub, vsmul, vnormSq]
        linear_combination (8 * k^4) * hT
      rw [hE]
      have hp : (0 : F) ≤ (4 * t + 4) * k^4 := mul_nonneg (by linarith) hk4
      linarith [hp]

/-- Every D20 roll target aligns its face normal exactly with the forward
direction. -/
theorem d20_target_aligns (t k rho ell : F) (i : ℕ) (hi : i < 20)
    (hT : t^2 = t + 1) (ht1 : 1 < t) (hk : 0 < k)
    (hrho : rho^2 = vnormSq (triNormalDir (icosaTri t k i))) (hrpos : 0 < rho)
    (hell : ell^2 = vnormSq (rollAvgNormal (icosaTri t k i) rho)) (hepos : 0 < ell) :
    applyAsUnit (d20TargetQuat t k rho ell i) (rollFaceNormal (icosaTri t k i) rho ell)
      = forwardRef := by
  obtain ⟨hns, hxy⟩ := d20_face_bounds t k hT ht1 i hi
  obtain ⟨htlow, htup⟩ := golden_bounds t hT ht1
  have hk4 : (0 : F) < k^4 := by positivity
  refine aligned_roll_normal _ rho ell ((8 - 4*t) * k^4) (12 * k^4) hrho hrpos hell hepos
    hxy ?_ (le_of_eq hns) ?_
  · exact mul_pos (by linarith) hk4
  · rw [epsQ]
    have hp : (0 : F) ≤ (8 - 4*t - 24 / 4503599627370496) * k^4 :=
      mul_nonneg (by norm_num; linarith) hk4.le
    nlinarith [hp]

end Dice

namespace Dice

/-! ## D12: `THREE.DodecahedronGeometry(1)` face table and a mis-sourced roll target

`D12.js` builds its mesh and 12-entry `faceData` table from the
dodecahedron (each pentagon is a fan of 3 consecutive triangles; `faceData`
reads only the *first* triangle of pentagon `f`, triangles `3f..3f+2`), and
its *initial* orientation from `faceData[11].normal`.  Its `rollDice`,
however, computes the roll target from a fresh `IcosahedronGeometry` — not
from the dodecahedron face table.

Parameters: `t` the golden ratio (`t² = t + 1`, `1 < t`), `r = 1/t` the
builder's second constant (`r · t = 1`), and `kd = 1/√3` the unit-sphere
projection factor (all 20 raw dodecahedron vertices have length √3). -/

variable {F : Type} [LinearOrderedField F]

/-- Raw vertex `j` of `DodecahedronGeometry` (before the projection onto
the unit sphere), in source order. -/
def dodecaVertRaw (t r : F) : ℕ → Vec3 F
  | 0 => ⟨-1, -1, -1⟩
  | 1 => ⟨-1, -1, 1⟩
  | 2 => ⟨-1, 1, -1⟩
  | 3 => ⟨-1, 1, 1⟩
  | 4 => ⟨1, -1, -1⟩
  | 5 => ⟨1, -1, 1⟩
  | 6 => ⟨1, 1, -1⟩
  | 7 => ⟨1, 1, 1⟩
  | 8 => ⟨0, -r, -t⟩
  | 9 => ⟨0, -r, t⟩
  | 10 => ⟨0, r, -t⟩
  | 11 => ⟨0, r, t⟩
  | 12 => ⟨-r, -t, 0⟩
  | 13 => ⟨-r, t, 0⟩
  | 14 => ⟨r, -t, 0⟩
  | 15 => ⟨r, t, 0⟩
  | 16 => ⟨-t, 0, -r⟩
  | 17 => ⟨t, 0, -r⟩
  | 18 => ⟨-t, 0, r⟩
  | 19 => ⟨t, 0, r⟩
  | _ => ⟨0, 0, 0⟩

/-- Vertex `j` of the unit-sphere dodecahedron, `kd` standing for `1/√3`. -/
def dodecaVert (t r kd : F) (j : ℕ) : Vec3 F := vsmul kd (dodecaVertRaw t r j)

/-- Triangle index row `i` of `DodecahedronGeometry`, in source order. -/
def dodecaIdx : ℕ → ℕ × ℕ × ℕ
  | 0 => (3, 11, 7)
  | 1 => (3, 7, 15)
  | 2 => (3, 15, 13)
  | 3 => (7, 19, 17)
  | 4 => (7, 17, 6)
  | 5 => (7, 6, 15)
  | 6 => (17, 4, 8)
  | 7 => (17, 8, 10)
  | 8 => (17, 10, 6)
  | 9 => (8, 0, 16)
  | 10 => (8, 16, 2)
  | 11 => (8, 2, 10)
  | 12 => (0, 12, 1)
  | 13 => (0, 1, 18)
  | 14 => (0, 18, 16)
  | 15 => (6, 10, 2)
  | 16 => (6, 2, 13)
  | 17 => (6, 13, 15)
  | 18 => (2, 16, 18)
  | 19 => (2, 18, 3)
  | 20 => (2, 3, 13)
  | 21 => (18, 1, 9)
  | 22 => (18, 9, 11)
  | 23 => (18, 11, 3)
  | 24 => (4, 14, 12)
  | 25 => (4, 12, 0)
  | 26 => (4, 0, 8)
  | 27 => (11, 9, 5)
  | 28 => (11, 5, 19)
  | 29 => (11, 19, 7)
  | 30 => (19, 5, 14)
  | 31 => (19, 14, 4)
  | 32 => (19, 4, 17)
  | 33 => (1, 12, 14)
  | 34 => (1, 14, 5)
  | 35 => (1, 5, 9)
  | _ => (0, 0, 0)

/-- Triangle `j` of the non-indexed D12 geometry. -/
def dodecaTri (t r kd : F) (j : ℕ) : Tri F :=
  ⟨dodecaVert t r kd (dodecaIdx j).1, dodecaVert t r kd (dodecaIdx j).2.1,
   dodecaVert t r kd (dodecaIdx j).2.2⟩

/-- `faceData[f].center` of `D12.js`: the mean
`new THREE.Vector3().add(v0).add(v1).add(v2).divideScalar(3)` of the three
vertices of the *first* triangle (`3f`) of pentagon `f`. -/
def d12FaceCenter (t r kd : F) (f : ℕ) : Vec3 F :=
  vsmul (1/3) (vadd (vadd (vadd ⟨0, 0, 0⟩ (dodecaTri t r kd (3 * f)).a)
    (dodecaTri t r kd (3 * f)).b) (dodecaTri t r kd (3 * f)).c)

/-- The unnormalised `faceData[f].normal` direction of `D12.js`:
`(v1 - v0) × (v2 - v0)` on the first triangle of pentagon `f`. -/
def d12FaceDirRaw (t r kd : F) (f : ℕ) : Vec3 F :=
  vcross (vsub (dodecaTri t r kd (3 * f)).b (dodecaTri t r kd (3 * f)).a)
    (vsub (dodecaTri t r kd (3 * f)).c (dodecaTri t r kd (3 * f)).a)

/-- `faceData[f].normal` of `D12.js` (normalized, dividing by its length
`rho`). -/
def d12FaceNormal (t r kd rho : F) (f : ℕ) : Vec3 F :=
  normalizeWith (d12FaceDirRaw t r kd f) rho

/-- The initial quaternion of `D12.js`:
`setFromUnitVectors(faceData[11].normal, forward)` ("face 12 upward"). -/
def d12InitialQuat (t r kd rho : F) : Quat F :=
  setFromUnitVectors (d12FaceNormal t r kd rho 11) forwardRef

/-- The target quaternion `D12.js`'s `rollDice` computes for face index `i`:
it is read off a fresh `THREE.IcosahedronGeometry(1)` — the icosahedron's
triangle `i` normal — not off the die's own dodecahedron face table. -/
def d12TargetQuat (t k rho ell : F) (i : ℕ) : Quat F :=
  setFromUnitVectors (rollFaceNormal (icosaTri t k i) rho ell) forwardRef

/-- The builder constant `r = 1/t` equals `t - 1` for the golden ratio. -/
theorem dodeca_r_eq (t r : F) (hT : t^2 = t + 1) (ht1 : 1 < t) (hrt : r * t = 1) :
    r = t - 1 := by
  have ht0 : t ≠ 0 := by positivity
  have hz : (r - (t - 1)) * t = 0 := by linear_combination hrt - hT
  rcases mul_eq_zero.mp hz with h | h
  · linarith
  · exact absurd h ht0

/-- Scaling the quantitative ε-margin by a non-negative factor. -/
theorem eps_scale (A B s : F) (hs : 0 ≤ s) (hAB : epsQ * (2 * B) ≤ A) :
    epsQ * (2 * (B * s)) ≤ A * s := by
  have h0 : (0 : F) ≤ (A - epsQ * (2 * B)) * s := mul_nonneg (by linarith) hs
  nlinarith [h0]

theorem vnormSq_vsub (a b : Vec3 F) :
    vnormSq (vsub a b) = vnormSq a - 2 * vdot a b + vnormSq b := by
  obtain ⟨ax, ay, az⟩ := a
  obtain ⟨bx, by', bz⟩ := b
  simp only [vsub, vdot, vnormSq]
  ring

theorem vdot_normalizeWith (a b : Vec3 F) (la lb : F) :
    vdot (normalizeWith a la) (normalizeWith b lb) = la⁻¹ * lb⁻¹ * vdot a b := by
  obtain ⟨ax, ay, az⟩ := a
  obtain ⟨bx, by', bz⟩ := b
  simp only [normalizeWith, vsmul, vdot]
  ring

/-- Norm facts for dodecahedron pentagon 11 (the D12's reference face):
squared length `(28-16t)·kd⁴`, horizontal part `(8-4t)·kd⁴`. -/
theorem d12_face11_facts (t kd : F) (hT : t^2 = t + 1) :
    vnormSq (d12FaceDirRaw t (t-1) kd 11) = (28 - 16*t) * kd^4
    ∧ (d12FaceDirRaw t (t-1) kd 11).x^2 + (d12FaceDirRaw t (t-1) kd 11).y^2
      = (8 - 4*t) * kd^4 := by
  constructor
  · simp only [d12FaceDirRaw, dodecaTri, dodecaVert, dodecaVertRaw, dodecaIdx, vcross, vsub,
      vsmul, vnormSq]
    norm_num
    linear_combination (4 * t^2 * kd^4 + (-12) * t * kd^4 + 20 * kd^4) * hT
  · simp only [d12FaceDirRaw, dodecaTri, dodecaVert, dodecaVertRaw, dodecaIdx, vcross, vsub,
      vsmul]
    norm_num
    linear_combination (4 * kd^4) * hT

/-- Norm fact for dodecahedron pentagon 0: squared length `(28-16t)·kd⁴`. -/
theorem d12_face0_normSq (t kd : F) (hT : t^2 = t + 1) :
    vnormSq (d12FaceDirRaw t (t-1) kd 0) = (28 - 16*t) * kd^4 := by
  simp only [d12FaceDirRaw, dodecaTri, dodecaVert, dodecaVertRaw, dodecaIdx, vcross, vsub,
    vsmul, vnormSq]
  norm_num
  linear_combination (8 * kd^4) * hT

/-- The inner product between the D12's own face-0 normal direction and the
icosahedron's triangle-0 normal direction its `rollDice` actually uses. -/
theorem d12_face0_icosa_dot (t kd k : F) (hT : t^2 = t + 1) :
    vdot (d12FaceDirRaw t (t-1) kd 0) (triNormalDir (icosaTri t k 0)) = 4 * kd^2 * k^2 := by
  simp only [d12FaceDirRaw, dodecaTri, dodecaVert, dodecaVertRaw, dodecaIdx, icosaTri,
    icosaVert, icosaVertRaw, icosaIdx, triNormalDir, vcross, vsub, vsmul, vdot]
  norm_num
  linear_combination (2 * kd^2 * k^2) * hT

/-- The D12's *initial* orientation does use its own face table, and maps
the normal of `faceData[11]` exactly onto the forward direction. -/
theorem d12_initial_aligns (t r kd rho : F) (hT : t^2 = t + 1) (ht1 : 1 < t)
    (hrt : r * t = 1) (hkd : 0 < kd)
    (hrho : rho^2 = vnormSq (d12FaceDirRaw t r kd 11)) (hrpos : 0 < rho) :
    applyAsUnit (d12InitialQuat t r kd rho) (d12FaceNormal t r kd rho 11) = forwardRef := by
  have hr' := dodeca_r_eq t r hT ht1 hrt
  subst hr'
  obtain ⟨htlow, htup⟩ := golden_bounds t hT ht1
  have hkd4 : (0 : F) < kd^4 := by positivity
  obtain ⟨hns, hxy⟩ := d12_face11_facts t kd hT
  refine solver_aligns (d12FaceDirRaw t (t-1) kd 11) rho ((8 - 4*t) * kd^4)
    ((28 - 16*t) * kd^4) hrho hrpos (le_of_eq hxy.symm)
    (mul_pos (by linarith) hkd4) (le_of_eq hns) ?_
  refine eps_scale (8 - 4*t) (28 - 16*t) (kd^4) hkd4.le ?_
  rw [epsQ]
  linarith

set_option maxHeartbeats 2000000 in
/-- The roll target `D12.js` commands is built from the icosahedron normal,
and applying it to the D12's *own* face-0 normal leaves that normal more
than `1e-3` away from the forward direction (squared distance `> 1e-6`) —
the settled die does not present the rolled face of its own face table. -/
theorem d12_misalignment (t r kd k rho ell rhoD : F)
    (hT : t^2 = t + 1) (ht1 : 1 < t) (hrt : r * t = 1) (hkd : 0 < kd) (hk : 0 < k)
    (hrho : rho^2 = vnormSq (triNormalDir (icosaTri t k 0))) (hrpos : 0 < rho)
    (hell : ell^2 = vnormSq (rollAvgNormal (icosaTri t k 0) rho)) (hepos : 0 < ell)
    (hrhoD : rhoD^2 = vnormSq (d12FaceDirRaw t r kd 0)) (hrDpos : 0 < rhoD) :
    1/1000000 < vnormSq (vsub (applyAsUnit (d12TargetQuat t k rho ell 0)
      (d12FaceNormal t r kd rhoD 0)) forwardRef) := by
  have hr' := dodeca_r_eq t r hT ht1 hrt
  subst hr'
  obtain ⟨hns, hxy⟩ := d20_face_bounds t k hT ht1 0 (by norm_num)
  obtain ⟨htlow, htup⟩ := golden_bounds t hT ht1
  have ht62 : t < 81/50 := by nlinarith
  have hk4 : (0 : F) < k^4 := by positivity
  have hkd4 : (0 : F) < kd^4 := by positivity
  have hrE : rollFaceNormal (icosaTri t k 0) rho ell
      = normalizeWith (triNormalDir (icosaTri t k 0)) rho :=
    rollFaceNormal_eq _ rho ell hrho hrpos hell hepos
  have hu : vnormSq (rollFaceNormal (icosaTri t k 0) rho ell) = 1 := by
    rw [hrE]
    exact normalizeWith_unit _ rho hrho (ne_of_gt hrpos)
  have hw : vnormSq (d12FaceNormal t (t-1) kd rhoD 0) = 1 :=
    normalizeWith_unit _ rhoD hrhoD (ne_of_gt hrDpos)
  have hfr : epsQ ≤ vdot (rollFaceNormal (icosaTri t k 0) rho ell) forwardRef + 1 := by
    rw [hrE]
    refine unit_dot_forward_bound _ rho ((8 - 4*t) * k^4) (12 * k^4) hrho hrpos hxy
      (mul_pos (by linarith) hk4) (le_of_eq hns) ?_
    refine eps_scale (8 - 4*t) 12 (k^4) hk4.le ?_
    rw [epsQ]
    linarith
  have hnormP := solver_preserves_normSq (rollFaceNormal (icosaTri t k 0) rho ell) forwardRef
    (d12FaceNormal t (t-1) kd rhoD 0) hu forwardRef_unit hfr
  have hdotP := solver_preserves_dot (rollFaceNormal (icosaTri t k 0) rho ell) forwardRef
    (d12FaceNormal t (t-1) kd rhoD 0) hu forwardRef_unit hfr
  have hexpand : vnormSq (vsub (applyAsUnit (d12TargetQuat t k rho ell 0)
      (d12FaceNormal t (t-1) kd rhoD 0)) forwardRef)
      = 2 - 2 * vdot (d12FaceNormal t (t-1) kd rhoD 0)
          (rollFaceNormal (icosaTri t k 0) rho ell) := by
    simp only [d12TargetQuat]
    rw [vnormSq_vsub, hnormP, hdotP, hw, forwardRef_unit]
    ring
  have hdot := d12_face0_icosa_dot t kd k hT
  have hwu : vdot (d12FaceNormal t (t-1) kd rhoD 0) (rollFaceNormal (icosaTri t k 0) rho ell)
      = rhoD⁻¹ * rho⁻¹ * (4 * kd^2 * k^2) := by
    rw [hrE, d12FaceNormal, vdot_normalizeWith, hdot]
  have hnormD := d12_face0_normSq t kd hT
  have hP2 : (rhoD * rho)^2 = (28 - 16*t) * kd^4 * (12 * k^4) := by
    rw [mul_pow, hrhoD, hrho, hnormD, hns]
  have hPpos : 0 < rhoD * rho := mul_pos hrDpos hrpos
  have hgap : (0 : F) < ((2 - 1/1000000)^2 * 12 * (28 - 16*t) - 64) * (kd^4 * k^4) := by
    refine mul_pos ?_ (by positivity)
    nlinarith [ht62]
  have hsq : (8 * kd^2 * k^2)^2 < ((2 - 1/1000000) * (rhoD * rho))^2 := by
    calc (8 * kd^2 * k^2)^2 = 64 * (kd^4 * k^4) := by ring
      _ < (2 - 1/1000000)^2 * 12 * (28 - 16*t) * (kd^4 * k^4) := by linarith [hgap]
      _ = (2 - 1/1000000)^2 * ((28 - 16*t) * kd^4 * (12 * k^4)) := by ring
      _ = ((2 - 1/1000000) * (rhoD * rho))^2 := by rw [mul_pow, hP2]
  have hlt : 8 * kd^2 * k^2 < (2 - 1/1000000) * (rhoD * rho) :=
    lt_of_pow_lt_pow_left 2 (by positivity) hsq
  have hX : rhoD⁻¹ * rho⁻¹ * (4 * kd^2 * k^2) = (8 * kd^2 * k^2) / (rhoD * rho) / 2 := by
    field_simp
    ring
  rw [hexpand, hwu, hX]
  have hdiv : (8 * kd^2 * k^2) / (rhoD * rho) < 2 - 1/1000000 :=
    (div_lt_iff hPpos).mpr hlt
  linarith [hdiv]

end Dice

namespace Dice

/-! ## D10: the `createD10Geometry` face table

`D10.js`'s `faceData` reads the unit-sphere positions of the builder's
triangle `2f` for physical face `f` (compare `d10FaceIdx`): centre = mean of
that triangle's three vertices, normal = normalized `(v1-v0) × (v2-v0)`.
The two apex vertices `(0,0,±1)` already lie on the unit sphere; the ten
equatorial vertices all have raw length `√1.011025`, so the projection
scales them by the common factor `w = 1/√1.011025` (hypotheses `0 < w`,
`w² = 40000/40441`).  The cosines `cos(k·36°)` are written via their
classical exact values `cos 36° = t/2`, `cos 72° = (t-1)/2` in the golden
ratio `t`, and the sines via `s = sin 36°` (hypotheses `s² = (3-t)/4`,
`0 < s`) and `sin 72° = s·t`. -/

variable {F : Type} [LinearOrderedField F]

/-- Unit-sphere vertex `j` of the D10 geometry, in builder order: two
apexes, then the equatorial vertex for each `k = j - 2` at angle `k·36°`
with alternating height `±0.105`, scaled onto the sphere by `w`. -/
def d10Vert (t s w : F) : ℕ → Vec3 F
  | 0 => ⟨0, 0, 1⟩
  | 1 => ⟨0, 0, -1⟩
  | 2 => vsmul w ⟨-1, 0, -(21/200)⟩
  | 3 => vsmul w ⟨-(t/2), -s, 21/200⟩
  | 4 => vsmul w ⟨-((t-1)/2), -(s*t), -(21/200)⟩
  | 5 => vsmul w ⟨(t-1)/2, -(s*t), 21/200⟩
  | 6 => vsmul w ⟨t/2, -s, -(21/200)⟩
  | 7 => vsmul w ⟨1, 0, 21/200⟩
  | 8 => vsmul w ⟨t/2, s, -(21/200)⟩
  | 9 => vsmul w ⟨(t-1)/2, s*t, 21/200⟩
  | 10 => vsmul w ⟨-((t-1)/2), s*t, -(21/200)⟩
  | 11 => vsmul w ⟨-(t/2), s, 21/200⟩
  | _ => ⟨0, 0, 0⟩

/-- Triangle index row `k` of the D10 builder, as a total function (agrees
with the list `d10FaceIdx`, see `d10TriRow_agrees`). -/
def d10TriRow : ℕ → ℕ × ℕ × ℕ
  | 0 => (0, 2, 3)
  | 1 => (0, 3, 4)
  | 2 => (0, 4, 5)
  | 3 => (0, 5, 6)
  | 4 => (0, 6, 7)
  | 5 => (0, 7, 8)
  | 6 => (0, 8, 9)
  | 7 => (0, 9, 10)
  | 8 => (0, 10, 11)
  | 9 => (0, 11, 2)
  | 10 => (1, 3, 2)
  | 11 => (1, 4, 3)
  | 12 => (1, 5, 4)
  | 13 => (1, 6, 5)
  | 14 => (1, 7, 6)
  | 15 => (1, 8, 7)
  | 16 => (1, 9, 8)
  | 17 => (1, 10, 9)
  | 18 => (1, 11, 10)
  | 19 => (1, 2, 11)
  | _ => (0, 0, 0)

theorem d10TriRow_agrees : ∀ k, k < 20 → d10TriRow k = d10FaceIdx.getD k (0, 0, 0) := by
  decide

/-- Triangle `k` of the non-indexed D10 geometry. -/
def d10Tri (t s w : F) (k : ℕ) : Tri F :=
  ⟨d10Vert t s w (d10TriRow k).1, d10Vert t s w (d10TriRow k).2.1,
   d10Vert t s w (d10TriRow k).2.2⟩

/-- `faceData[f].center` of `D10.js`: the mean
`new THREE.Vector3().add(v0).add(v1).add(v2).divideScalar(3)` of the three
vertices of triangle `2f`. -/
def d10FaceCenter (t s w : F) (f : ℕ) : Vec3 F :=
  vsmul (1/3) (vadd (vadd (vadd ⟨0, 0, 0⟩ (d10Tri t s w (2 * f)).a)
    (d10Tri t s w (2 * f)).b) (d10Tri t s w (2 * f)).c)

/-- The unnormalised `faceData[f].normal` direction of `D10.js`:
`(v1 - v0) × (v2 - v0)` on triangle `2f`. -/
def d10FaceDirRaw (t s w : F) (f : ℕ) : Vec3 F :=
  vcross (vsub (d10Tri t s w (2 * f)).b (d10Tri t s w (2 * f)).a)
    (vsub (d10Tri t s w (2 * f)).c (d10Tri t s w (2 * f)).a)

/-- `faceData[f].normal` of `D10.js` (normalized, dividing by its length
`rho`). -/
def d10FaceNormal (t s w rho : F) (f : ℕ) : Vec3 F :=
  normalizeWith (d10FaceDirRaw t s w f) rho

/-- The target quaternion `D10.js`'s `rollDice` computes for face index `f`:
`setFromUnitVectors(faceData[f].normal, forward)` — this die reads its own
face table. -/
def d10TargetQuat (t s w rho : F) (f : ℕ) : Quat F :=
  setFromUnitVectors (d10FaceNormal t s w rho f) forwardRef

/-- The initial quaternion of `D10.js`:
`setFromUnitVectors(faceData[9].normal, forward)`. -/
def d10InitialQuat (t s w rho : F) : Quat F := d10TargetQuat t s w rho 9

set_option maxHeartbeats 3200000 in
/-- Per-face norm facts for the D10: every face-table normal direction has
the same squared length and the same horizontal part (the ten kite faces
are congruent under rotation about the z-axis and the z-flip). -/
theorem d10_face_bounds (t s w : F) (hT : t^2 = t + 1) (hS : s^2 = (3 - t)/4)
    (hW : w^2 = 40000/40441) (f : ℕ) (hf : f < 10) :
    vnormSq (d10FaceDirRaw t s w f) = ((4470560000 : F) - 2000000000*t) / 1635474481
    ∧ (d10FaceDirRaw t s w f).x^2 + (d10FaceDirRaw t s w f).y^2
      = ((3270560000 : F) - 1600000000*t) / 1635474481 := by
  interval_cases f
  · constructor
    · simp only [d10FaceDirRaw, d10Tri, d10TriRow, d10Vert, vcross, vsub, vsmul, vnormSq]
      norm_num
      linear_combination ((441/160000) * w^4 + (21/400) * w^3 + (1/4) * w^2) * hT + ((40441/40000) * w^4 + (21/100) * w^3 + w^2) * hS + ((-9559/40000) * t * w^2 + (-50000/40441) * t + (15441/20000) * w^2 + (111764/40441)) * hW
    · simp only [d10FaceDirRaw, d10Tri, d10TriRow, d10Vert, vcross, vsub, vsmul, vnormSq]
      norm_num
      linear_combination ((441/160000) * w^4 + (21/400) * w^3 + (1/4) * w^2) * hT + ((441/40000) * w^4 + (21/100) * w^3 + w^2) * hS + ((441/40000) * t * w^2 + (-40000/40441) * t + (441/20000) * w^2 + (81764/40441)) * hW
  · constructor
    · simp only [d10FaceDirRaw, d10Tri, d10TriRow, d10Vert, vcross, vsub, vsmul, vnormSq]
      norm_num
      linear_combination (t^2 * s^2 * w^4 - t * s^2 * w^4 + (10441/10000) * s^2 * w^4 + w^2 + (-17640000/1635474481)) * hT + ((441/10000) * t * w^4 + (10441/10000) * w^4) * hS + ((-441/40000) * t^2 * w^2 + (-441/40441) * t^2 + (-4559/20000) * t * w^2 + (-49559/40441) * t + (31323/40000) * w^2 + (112205/40441)) * hW
    · simp only [d10FaceDirRaw, d10Tri, d10TriRow, d10Vert, vcross, vsub, vsmul, vnormSq]
      norm_num
      linear_combination ((441/10000) * s^2 * w^4 + w^2 + (-17640000/1635474481)) * hT + ((441/10000) * t * w^4 + (441/10000) * w^4) * hS + ((-441/40000) * t^2 * w^2 + (-441/40441) * t^2 + (441/20000) * t * w^2 + (-39559/40441) * t + (1323/40000) * w^2 + (82205/40441)) * hW
  · constructor
    · simp only [d10FaceDirRaw, d10Tri, d10TriRow, d10Vert, vcross, vsub, vsmul, vnormSq]
      norm_num
      linear_combination ((441/160000) * w^4 + (-21/400) * w^3 + (1/4) * w^2) * hT + ((40441/40000) * w^4 + (-21/100) * w^3 + w^2) * hS + ((-9559/40000) * t * w^2 + (-50000/40441) * t + (15441/20000) * w^2 + (111764/40441)) * hW
    · simp only [d10FaceDirRaw, d10Tri, d10TriRow, d10Vert, vcross, vsub, vsmul, vnormSq]
      norm_num
      linear_combination ((441/160000) * w^4 + (-21/400) * w^3 + (1/4) * w^2) * hT + ((441/40000) * w^4 + (-21/100) * w^3 + w^2) * hS + ((441/40000) * t * w^2 + (-40000/40441) * t + (441/20000) * w^2 + (81764/40441)) * hW
  · constructor
    · simp only [d10FaceDirRaw, d10Tri, d10TriRow, d10Vert, vcross, vsub, vsmul, vnormSq]
      norm_num
      linear_combination ((1/4) * t^2 * s^2 * w^4 + (-1/4) * t * s^2 * w^4 + (30441/40000) * s^2 * w^4 + (21/100) * s^2 * w^3 + s^2 * w^2 + (441/40000) * w^4 + (-2100/40441) * w + (391180000/1635474481)) * hT + ((1323/40000) * t * w^4 + (21/100) * t * w^3 - t * w^2 + (20441/20000) * w^4 + 2 * w^2) * hS + ((-1323/160000) * t^2 * w^2 + (-21/400) * t^2 * w + (19559/80882) * t^2 + (-36913/160000) * t * w^2 + (21/400) * t * w + (-119559/80882) * t + (124851/160000) * w^2 + (21/400) * w + (203969/80882)) * hW
    · simp only [d10FaceDirRaw, d10Tri, d10TriRow, d10Vert, vcross, vsub, vsmul, vnormSq]
      norm_num
      linear_combination ((441/40000) * s^2 * w^4 + (21/100) * s^2 * w^3 + s^2 * w^2 + (441/40000) * w^4 + (-2100/40441) * w + (391180000/1635474481)) * hT + ((1323/40000) * t * w^4 + (21/100) * t * w^3 - t * w^2 + (441/20000) * w^4 + 2 * w^2) * hS + ((-1323/160000) * t^2 * w^2 + (-21/400) * t^2 * w + (19559/80882) * t^2 + (3087/160000) * t * w^2 + (21/400) * t * w + (-99559/80882) * t + (4851/160000) * w^2 + (21/400) * w + (143969/80882)) * hW
  · constructor
    · simp only [d10FaceDirRaw, d10Tri, d10TriRow, d10Vert, vcross, vsub, vsmul, vnormSq]
      norm_num
      linear_combination ((1/4) * t^2 * s^2 * w^4 + (-1/4) * t * s^2 * w^4 + (30441/40000) * s^2 * w^4 + (-21/100) * s^2 * w^3 + s^2 * w^2 + (441/40000) * w^4 + (2100/40441) * w + (391180000/1635474481)) * hT + ((1323/40000) * t * w^4 + (-21/100) * t * w^3 - t * w^2 + (20441/20000) * w^4 + 2 * w^2) * hS + ((-1323/160000) * t^2 * w^2 + (21/400) * t^2 * w + (19559/80882) * t^2 + (-36913/160000) * t * w^2 + (-21/400) * t * w + (-119559/80882) * t + (124851/160000) * w^2 + (-21/400) * w + (203969/80882)) * hW
    · simp only [d10FaceDirRaw, d10Tri, d10TriRow, d10Vert, vcross, vsub, vsmul, vnormSq]
      norm_num
      linear_combination ((441/40000) * s^2 * w^4 + (-21/100) * s^2 * w^3 + s^2 * w^2 + (441/40000) * w^4 + (2100/40441) * w + (391180000/1635474481)) * hT + ((1323/40000) * t * w^4 + (-21/100) * t * w^3 - t * w^2 + (441/20000) * w^4 + 2 * w^2) * hS + ((-1323/160000) * t^2 * w^2 + (21/400) * t^2 * w + (19559/80882) * t^2 + (3087/160000) * t * w^2 + (-21/400) * t * w + (-99559/80882) * t + (4851/160000) * w^2 + (-21/400) * w + (143969/80882)) * hW
  · constructor
    · simp only [d10FaceDirRaw, d10Tri, d10TriRow, d10Vert, vcross, vsub, vsmul, vnormSq]
      norm_num
      linear_combination ((441/160000) * w^4 + (-21/400) * w^3 + (1/4) * w^2) * hT + ((40441/40000) * w^4 + (-21/100) * w^3 + w^2) * hS + ((-9559/40000) * t * w^2 + (-50000/40441) * t + (15441/20000) * w^2 + (111764/40441)) * hW
    · simp only [d10FaceDirRaw, d10Tri, d10TriRow, d10Vert, vcross, vsub, vsmul, vnormSq]
      norm_num
      linear_combination ((441/160000) * w^4 + (-21/400) * w^3 + (1/4) * w^2) * hT + ((441/40000) * w^4 + (-21/100) * w^3 + w^2) * hS + ((441/40000) * t * w^2 + (-40000/40441) * t + (441/20000) * w^2 + (81764/40441)) * hW
  · constructor
    · simp only [d10FaceDirRaw, d10Tri, d10TriRow, d10Vert, vcross, vsub, vsmul, vnormSq]
      norm_num
      linear_combination (t^2 * s^2 * w^4 - t * s^2 * w^4 + (10441/10000) * s^2 * w^4 + w^2 + (-17640000/1635474481)) * hT + ((441/10000) * t * w^4 + (10441/10000) * w^4) * hS + ((-441/40000) * t^2 * w^2 + (-441/40441) * t^2 + (-4559/20000) * t * w^2 + (-49559/40441) * t + (31323/40000) * w^2 + (112205/40441)) * hW
    · simp only [d10FaceDirRaw, d10Tri, d10TriRow, d10Vert, vcross, vsub, vsmul, vnormSq]
      norm_num
      linear_combination ((441/10000) * s^2 * w^4 + w^2 + (-17640000/1635474481)) * hT + ((441/10000) * t * w^4 + (441/10000) * w^4) * hS + ((-441/40000) * t^2 * w^2 + (-441/40441) * t^2 + (441/20000) * t * w^2 + (-39559/40441) * t + (1323/40000) * w^2 + (82205/40441)) * hW
  · constructor
    · simp only [d10FaceDirRaw, d10Tri, d10TriRow, d10Vert, vcross, vsub, vsmul, vnormSq]
      norm_num
      linear_combination ((441/160000) * w^4 + (21/400) * w^3 + (1/4) * w^2) * hT + ((40441/40000) * w^4 + (21/100) * w^3 + w^2) * hS + ((-9559/40000) * t * w^2 + (-50000/40441) * t + (15441/20000) * w^2 + (111764/40441)) * hW
    · simp only [d10FaceDirRaw, d10Tri, d10TriRow, d10Vert, vcross, vsub, vsmul, vnormSq]
      norm_num
      linear_combination ((441/160000) * w^4 + (21/400) * w^3 + (1/4) * w^2) * hT + ((441/40000) * w^4 + (21/100) * w^3 + w^2) * hS + ((441/40000) * t * w^2 + (-40000/40441) * t + (441/20000) * w^2 + (81764/40441)) * hW
  · constructor
    · simp only [d10FaceDirRaw, d10Tri, d10TriRow, d10Vert, vcross, vsub, vsmul, vnormSq]
      norm_num
      linear_combination ((1/4) * t^2 * s^2 * w^4 + (-1/4) * t * s^2 * w^4 + (30441/40000) * s^2 * w^4 + (-21/100) * s^2 * w^3 + s^2 * w^2 + (441/40000) * w^4 + (2100/40441) * w + (391180000/1635474481)) * hT + ((1323/40000) * t * w^4 + (-21/100) * t * w^3 - t * w^2 + (20441/20000) * w^4 + 2 * w^2) * hS + ((-1323/160000) * t^2 * w^2 + (21/400) * t^2 * w + (19559/80882) * t^2 + (-36913/160000) * t * w^2 + (-21/400) * t * w + (-119559/80882) * t + (124851/160000) * w^2 + (-21/400) * w + (203969/80882)) * hW
    · simp only [d10FaceDirRaw, d10Tri, d10TriRow, d10Vert, vcross, vsub, vsmul, vnormSq]
      norm_num
      linear_combination ((441/40000) * s^2 * w^4 + (-21/100) * s^2 * w^3 + s^2 * w^2 + (441/40000) * w^4 + (2100/40441) * w + (391180000/1635474481)) * hT + ((1323/40000) * t * w^4 + (-21/100) * t * w^3 - t * w^2 + (441/20000) * w^4 + 2 * w^2) * hS + ((-1323/160000) * t^2 * w^2 + (21/400) * t^2 * w + (19559/80882) * t^2 + (3087/160000) * t * w^2 + (-21/400) * t * w + (-99559/80882) * t + (4851/160000) * w^2 + (-21/400) * w + (143969/80882)) * hW
  · constructor
    · simp only [d10FaceDirRaw, d10Tri, d10TriRow, d10Vert, vcross, vsub, vsmul, vnormSq]
      norm_num
      linear_combination ((1/4) * t^2 * s^2 * w^4 + (-1/4) * t * s^2 * w^4 + (30441/40000) * s^2 * w^4 + (21/100) * s^2 * w^3 + s^2 * w^2 + (441/40000) * w^4 + (-2100/40441) * w + (391180000/1635474481)) * hT + ((1323/40000) * t * w^4 + (21/100) * t * w^3 - t * w^2 + (20441/20000) * w^4 + 2 * w^2) * hS + ((-1323/160000) * t^2 * w^2 + (-21/400) * t^2 * w + (19559/80882) * t^2 + (-36913/160000) * t * w^2 + (21/400) * t * w + (-119559/80882) * t + (124851/160000) * w^2 + (21/400) * w + (203969/80882)) * hW
    · simp only [d10FaceDirRaw, d10Tri, d10TriRow, d10Vert, vcross, vsub, vsmul, vnormSq]
      norm_num
      linear_combination ((441/40000) * s^2 * w^4 + (21/100) * s^2 * w^3 + s^2 * w^2 + (441/40000) * w^4 + (-2100/40441) * w + (391180000/1635474481)) * hT + ((1323/40000) * t * w^4 + (21/100) * t * w^3 - t * w^2 + (441/20000) * w^4 + 2 * w^2) * hS + ((-1323/160000) * t^2 * w^2 + (-21/400) * t^2 * w + (19559/80882) * t^2 + (3087/160000) * t * w^2 + (21/400) * t * w + (-99559/80882) * t + (4851/160000) * w^2 + (21/400) * w + (143969/80882)) * hW

/-- Every D10 roll target aligns its face-table normal exactly with the
forward direction. -/
theorem d10_target_aligns (t s w rho : F) (f : ℕ) (hf : f < 10)
    (hT : t^2 = t + 1) (ht1 : 1 < t) (hS : s^2 = (3 - t)/4) (hW : w^2 = 40000/40441)
    (hrho : rho^2 = vnormSq (d10FaceDirRaw t s w f)) (hrpos : 0 < rho) :
    applyAsUnit (d10TargetQuat t s w rho f) (d10FaceNormal t s w rho f) = forwardRef := by
  obtain ⟨hns, hxy⟩ := d10_face_bounds t s w hT hS hW f hf
  obtain ⟨htlow, htup⟩ := golden_bounds t hT ht1
  refine solver_aligns (d10FaceDirRaw t s w f) rho
    (((3270560000 : F) - 1600000000*t) / 1635474481)
    (((4470560000 : F) - 2000000000*t) / 1635474481) hrho hrpos (le_of_eq hxy.symm) ?_
    (le_of_eq hns) ?_
  · rw [div_pos_iff]
    left
    constructor <;> [linarith; norm_num]
  · rw [epsQ]
    linarith

end Dice

namespace Dice

/-! ## Claim C5: face centres of the multi-triangle dice -/

variable {F : Type} [LinearOrderedField F]

/-- Spec-side: the mean of the three vertices of one triangle. -/
def triMean (tr : Tri F) : Vec3 F :=
  vsmul (1/3) (vadd (vadd tr.a tr.b) tr.c)

/-- Spec-side: the normalized cross product of the two edge vectors of a
triangle taken from its first vertex. -/
def triEdgeCrossNormal (tr : Tri F) (len : F) : Vec3 F :=
  normalizeWith (vcross (vsub tr.b tr.a) (vsub tr.c tr.a)) len

/-- Spec-side: the mean of *all six* vertices of the two constituent
triangles (`2f` and `2f+1`) of D10 physical face `f`, as claim C5 describes
the stored face centre. -/
def d10SpecMeanAll (t s w : F) (f : ℕ) : Vec3 F :=
  vsmul (1/6) (vadd (vadd (vadd (vadd (vadd (d10Tri t s w (2 * f)).a
    (d10Tri t s w (2 * f)).b) (d10Tri t s w (2 * f)).c)
    (d10Tri t s w (2 * f + 1)).a) (d10Tri t s w (2 * f + 1)).b)
    (d10Tri t s w (2 * f + 1)).c)

/-- The stored centre of D10 face 0 differs from the mean of all six
constituent-triangle vertices: their x-coordinates differ by `w·(3-t)/12`,
which is positive. -/
theorem d10_center_not_mean_all (t s w : F) (hw : 0 < w) (ht3 : t < 3) :
    d10FaceCenter t s w 0 ≠ d10SpecMeanAll t s w 0 := by
  intro h
  have hx : (d10FaceCenter t s w 0).x = (d10SpecMeanAll t s w 0).x := by rw [h]
  have hdiff : (d10SpecMeanAll t s w 0).x - (d10FaceCenter t s w 0).x = w * (3 - t) / 12 := by
    simp only [d10SpecMeanAll, d10FaceCenter, d10Tri, d10TriRow, d10Vert, vadd, vsmul]
    ring
  have hpos : 0 < w * (3 - t) / 12 :=
    div_pos (mul_pos hw (by linarith)) (by norm_num)
  rw [hx] at hdiff
  simp at hdiff
  linarith [hdiff, hpos]

end Dice

namespace Dice

/-! ## Real-number instantiation helpers

The geometric theorems above are parameterised by the irrational constants
of the builders, constrained by their exact defining equations.  The
lemmas below produce the genuine real constants together with proofs of
those equations, so that closed corollaries can instantiate the
parameterised theorems at the actual dice. -/

theorem vnormSq_nonneg {F : Type} [LinearOrderedField F] (v : Vec3 F) : 0 ≤ vnormSq v := by
  obtain ⟨vx, vy, vz⟩ := v
  simp only [vnormSq]
  linarith [mul_self_nonneg vx, mul_self_nonneg vy, mul_self_nonneg vz]

/-- The square root of a positive squared norm is a valid normalisation
length. -/
theorem sqrt_norm_spec (v : Vec3 ℝ) (h : 0 < vnormSq v) :
    (Real.sqrt (vnormSq v))^2 = vnormSq v ∧ 0 < Real.sqrt (vnormSq v) :=
  ⟨Real.sq_sqrt h.le, Real.sqrt_pos.mpr h⟩

theorem real_sqrt5_sq : (Real.sqrt 5)^2 = 5 := Real.sq_sqrt (by norm_num)

theorem real_sqrt5_gt_two : (2 : ℝ) < Real.sqrt 5 := by
  nlinarith [real_sqrt5_sq, Real.sqrt_nonneg 5]

/-- The genuine golden ratio satisfies its defining equation. -/
theorem real_golden_sq : ((1 + Real.sqrt 5)/2)^2 = (1 + Real.sqrt 5)/2 + 1 := by
  have h := real_sqrt5_sq
  nlinarith [h]

theorem real_golden_gt_one : (1 : ℝ) < (1 + Real.sqrt 5)/2 := by
  linarith [real_sqrt5_gt_two]

/-- The genuine D10 sphere-projection factor `1/√1.011025` satisfies its
defining equation and is positive. -/
theorem real_d10w_spec :
    (((Real.sqrt (40441/40000))⁻¹ : ℝ))^2 = 40000/40441 ∧ (0:ℝ) < (Real.sqrt (40441/40000))⁻¹ := by
  have hpos : (0:ℝ) < Real.sqrt (40441/40000) :=
    Real.sqrt_pos.mpr (by norm_num)
  constructor
  · rw [inv_pow, Real.sq_sqrt (by norm_num : (0:ℝ) ≤ 40441/40000)]
    norm_num
  · exact inv_pos.mpr hpos

/-- The genuine `sin 36°` satisfies `s² = (3 - t)/4` at the golden ratio
and is positive. -/
theorem real_sin36_spec :
    (Real.sin (Real.pi/5))^2 = (3 - (1 + Real.sqrt 5)/2)/4 ∧ (0:ℝ) < Real.sin (Real.pi/5) := by
  constructor
  · have hcos := Real.cos_pi_div_five
    have hs : (Real.sin (Real.pi/5))^2 = 1 - (Real.cos (Real.pi/5))^2 := by
      have := Real.sin_sq_add_cos_sq (Real.pi/5)
      linarith
    rw [hs, hcos]
    have h5 := real_sqrt5_sq
    nlinarith [h5]
  · apply Real.sin_pos_of_pos_of_lt_pi
    · positivity
    · rw [div_lt_iff (by norm_num)]
      nlinarith [Real.pi_pos]

end Dice

namespace Dice

/-! ## Claim theorems C5 and C8 -/

/-- A triangle's centre written as the builder's add-chain equals its
vertex mean. -/
theorem center_chain_eq {F : Type} [LinearOrderedField F] (tr : Tri F) :
    vsmul (1/3 : F) (vadd (vadd (vadd ⟨0, 0, 0⟩ tr.a) tr.b) tr.c) = triMean tr := by
  obtain ⟨⟨ax, ay, az⟩, ⟨bx, by', bz⟩, ⟨cx, cy, cz⟩⟩ := tr
  simp only [triMean, vadd, vsmul, Vec3.mk.injEq]
  refine ⟨by ring, by ring, by ring⟩

/-- C5 counterexample: at the genuine D10 (golden ratio, `sin 36°`, sphere
factor `1/√1.011025`), the centre `faceData[0].center` stores differs from
the mean of all six vertices of face 0's two constituent triangles: the
claim's description of the stored centre is false. -/
theorem c5_counterexample :
    d10FaceCenter ((1 + Real.sqrt 5)/2) (Real.sin (Real.pi/5)) ((Real.sqrt (40441/40000))⁻¹) 0
      ≠ d10SpecMeanAll ((1 + Real.sqrt 5)/2) (Real.sin (Real.pi/5))
        ((Real.sqrt (40441/40000))⁻¹) 0 :=
  d10_center_not_mean_all _ _ _ real_d10w_spec.2
    (by nlinarith [real_sqrt5_sq, sq_nonneg (Real.sqrt 5 - 3)])

/-- C5 amended: for every physical face of the D10 (2-triangle kites) and
the D12 (3-triangle pentagons), the face centre stored in the face table
equals the mean of the vertices of the face's *first* constituent triangle
only (not of all constituent triangles), and the face normal equals the
normalized cross product of two edge vectors of that first triangle. -/
theorem c5_amended {F : Type} [LinearOrderedField F] :
    (∀ t s w rho : F, ∀ f : ℕ, f < 10 →
      d10FaceCenter t s w f = triMean (d10Tri t s w (2 * f))
      ∧ d10FaceNormal t s w rho f = triEdgeCrossNormal (d10Tri t s w (2 * f)) rho)
    ∧ (∀ t r kd rho : F, ∀ f : ℕ, f < 12 →
      d12FaceCenter t r kd f = triMean (dodecaTri t r kd (3 * f))
      ∧ d12FaceNormal t r kd rho f = triEdgeCrossNormal (dodecaTri t r kd (3 * f)) rho) := by
  constructor
  · intro t s w rho f _
    exact ⟨center_chain_eq _, rfl⟩
  · intro t r kd rho f _
    exact ⟨center_chain_eq _, rfl⟩

/-- Witness for the amended C5 at concrete scalars and face 0 of each die. -/
theorem c5_amended_witness :
    (d10FaceCenter (8/5 : ℚ) (3/5) 1 0 = triMean (d10Tri (8/5) (3/5) 1 0)
      ∧ d10FaceNormal (8/5 : ℚ) (3/5) 1 1 0 = triEdgeCrossNormal (d10Tri (8/5) (3/5) 1 0) 1)
    ∧ (d12FaceCenter (8/5 : ℚ) (5/8) 1 0 = triMean (dodecaTri (8/5) (5/8) 1 0)
      ∧ d12FaceNormal (8/5 : ℚ) (5/8) 1 1 0 = triEdgeCrossNormal (dodecaTri (8/5) (5/8) 1 0) 1) := by
  have h1 := c5_amended.1 (8/5 : ℚ) (3/5) 1 1 0 (by norm_num)
  have h2 := c5_amended.2 (8/5 : ℚ) (5/8) 1 1 0 (by norm_num)
  simpa using ⟨h1, h2⟩

/-- C8: before any roll occurs, the initial orientation applied to each die
maps the reference face's outward normal exactly onto the fixed forward
direction `(0,0,1)`: face index 3 for D4, face 6 for D6 (via the Euler
rotation π about X), face index 7 for D8, face index 9 for D10, face index
11 for D12, and face index 19 for D20.  The irrational builder constants
and normalisation lengths are constrained by their exact defining
equations (the witness instantiates them at the genuine real values). -/
theorem c8_initial_orientation_aligns {F : Type} [LinearOrderedField F] :
    (∀ u rho ell : F, 0 < u → rho^2 = vnormSq (triNormalDir (d4Tri u 3)) → 0 < rho →
      ell^2 = vnormSq (rollAvgNormal (d4Tri u 3) rho) → 0 < ell →
      applyAsUnit (d4InitialQuat u rho ell) (rollFaceNormal (d4Tri u 3) rho ell) = forwardRef)
    ∧ (∀ h : F, 2 * h^2 = 1 →
      applyAsUnit (d6InitialQuat h) (d6FaceNormal 6) = forwardRef)
    ∧ (∀ rho ell : F, rho^2 = vnormSq (triNormalDir (d8Tri 7 : Tri F)) → 0 < rho →
      ell^2 = vnormSq (rollAvgNormal (d8Tri 7) rho) → 0 < ell →
      applyAsUnit (d8InitialQuat rho ell) (rollFaceNormal (d8Tri 7) rho ell) = forwardRef)
    ∧ (∀ t s w rho : F, t^2 = t + 1 → 1 < t → s^2 = (3 - t)/4 → w^2 = 40000/40441 →
      rho^2 = vnormSq (d10FaceDirRaw t s w 9) → 0 < rho →
      applyAsUnit (d10InitialQuat t s w rho) (d10FaceNormal t s w rho 9) = forwardRef)
    ∧ (∀ t r kd rho : F, t^2 = t + 1 → 1 < t → r * t = 1 → 0 < kd →
      rho^2 = vnormSq (d12FaceDirRaw t r kd 11) → 0 < rho →
      applyAsUnit (d12InitialQuat t r kd rho) (d12FaceNormal t r kd rho 11) = forwardRef)
    ∧ (∀ t k rho ell : F, t^2 = t + 1 → 1 < t → 0 < k →
      rho^2 = vnormSq (triNormalDir (icosaTri t k 19)) → 0 < rho →
      ell^2 = vnormSq (rollAvgNormal (icosaTri t k 19) rho) → 0 < ell →
      applyAsUnit (d20InitialQuat t k rho ell) (rollFaceNormal (icosaTri t k 19) rho ell)
        = forwardRef) := by
  refine ⟨?_, ?_, ?_, ?_, ?_, ?_⟩
  · intro u rho ell hu hrho hrpos hell hepos
    exact d4_target_aligns u rho ell 3 (by norm_num) hu hrho hrpos hell hepos
  · intro h hh
    exact d6_face_aligns h hh 6 (by norm_num) (by norm_num)
  · intro rho ell hrho hrpos hell hepos
    exact d8_target_aligns rho ell 7 (by norm_num) hrho hrpos hell hepos
  · intro t s w rho hT ht1 hS hW hrho hrpos
    exact d10_target_aligns t s w rho 9 (by norm_num) hT ht1 hS hW hrho hrpos
  · intro t r kd rho hT ht1 hrt hkd hrho hrpos
    exact d12_initial_aligns t r kd rho hT ht1 hrt hkd hrho hrpos
  · intro t k rho ell hT ht1 hk hrho hrpos hell hepos
    exact d20_target_aligns t k rho ell 19 (by norm_num) hT ht1 hk hrho hrpos hell hepos

end Dice

namespace Dice

/-! ## Claim C2: what the commanded roll target aligns -/

/-- C2 amended: for D4, D6, D8, D10 and D20 the target orientation
commanded when the tumble duration elapses maps the selected face's normal,
taken from that die's own geometry/face table, exactly onto the forward
direction `(0,0,1)` (so at settle the rolled face's normal reaches the
forward direction); for D12 alone the commanded rotation instead maps the
`i`-th triangle normal of a freshly built *icosahedron* onto the forward
direction — not the D12's own dodecahedron face-table normal. -/
theorem c2_amended {F : Type} [LinearOrderedField F] :
    (∀ u rho ell : F, ∀ i : ℕ, i < 4 → 0 < u →
      rho^2 = vnormSq (triNormalDir (d4Tri u i)) → 0 < rho →
      ell^2 = vnormSq (rollAvgNormal (d4Tri u i) rho) → 0 < ell →
      applyAsUnit (d4TargetQuat u rho ell i) (rollFaceNormal (d4Tri u i) rho ell) = forwardRef)
    ∧ (∀ h : F, ∀ n : ℕ, 1 ≤ n → n ≤ 6 → 2 * h^2 = 1 →
      applyAsUnit (d6FaceQuat h n) (d6FaceNormal n) = forwardRef)
    ∧ (∀ rho ell : F, ∀ i : ℕ, i < 8 →
      rho^2 = vnormSq (triNormalDir (d8Tri i : Tri F)) → 0 < rho →
      ell^2 = vnormSq (rollAvgNormal (d8Tri i) rho) → 0 < ell →
      applyAsUnit (d8TargetQuat rho ell i) (rollFaceNormal (d8Tri i) rho ell) = forwardRef)
    ∧ (∀ t s w rho : F, ∀ f : ℕ, f < 10 → t^2 = t + 1 → 1 < t →
      s^2 = (3 - t)/4 → w^2 = 40000/40441 →
      rho^2 = vnormSq (d10FaceDirRaw t s w f) → 0 < rho →
      applyAsUnit (d10TargetQuat t s w rho f) (d10FaceNormal t s w rho f) = forwardRef)
    ∧ (∀ t k rho ell : F, ∀ i : ℕ, i < 20 → t^2 = t + 1 → 1 < t → 0 < k →
      rho^2 = vnormSq (triNormalDir (icosaTri t k i)) → 0 < rho →
      ell^2 = vnormSq (rollAvgNormal (icosaTri t k i) rho) → 0 < ell →
      applyAsUnit (d20TargetQuat t k rho ell i) (rollFaceNormal (icosaTri t k i) rho ell)
        = forwardRef)
    ∧ (∀ t k rho ell : F, ∀ i : ℕ, i < 12 → t^2 = t + 1 → 1 < t → 0 < k →
      rho^2 = vnormSq (triNormalDir (icosaTri t k i)) → 0 < rho →
      ell^2 = vnormSq (rollAvgNormal (icosaTri t k i) rho) → 0 < ell →
      applyAsUnit (d12TargetQuat t k rho ell i) (rollFaceNormal (icosaTri t k i) rho ell)
        = forwardRef) := by
  refine ⟨?_, ?_, ?_, ?_, ?_, ?_⟩
  · intro u rho ell i hi hu hrho hrpos hell hepos
    exact d4_target_aligns u rho ell i hi hu hrho hrpos hell hepos
  · intro h n hn1 hn6 hh
    exact d6_face_aligns h hh n hn1 hn6
  · intro rho ell i hi hrho hrpos hell hepos
    exact d8_target_aligns rho ell i hi hrho hrpos hell hepos
  · intro t s w rho f hf hT ht1 hS hW hrho hrpos
    exact d10_target_aligns t s w rho f hf hT ht1 hS hW hrho hrpos
  · intro t k rho ell i hi hT ht1 hk hrho hrpos hell hepos
    exact d20_target_aligns t k rho ell i hi hT ht1 hk hrho hrpos hell hepos
  · intro t k rho ell i hi hT ht1 hk hrho hrpos hell hepos
    exact d20_target_aligns t k rho ell i (by omega) hT ht1 hk hrho hrpos hell hepos

/-! ### Positivity of the squared normal lengths at the genuine constants -/

theorem real_u_pos : (0 : ℝ) < (Real.sqrt 3)⁻¹ :=
  inv_pos.mpr (Real.sqrt_pos.mpr (by norm_num))

theorem real_h_spec : 2 * ((Real.sqrt 2)/2)^2 = (1 : ℝ) := by
  have h2 : (Real.sqrt 2)^2 = 2 := Real.sq_sqrt (by norm_num)
  nlinarith [h2]

theorem real_k_pos : (0 : ℝ) < (Real.sqrt (1 + ((1 + Real.sqrt 5)/2)^2))⁻¹ := by
  apply inv_pos.mpr
  apply Real.sqrt_pos.mpr
  positivity

theorem real_r_spec : ((1 + Real.sqrt 5)/2)⁻¹ * ((1 + Real.sqrt 5)/2) = (1 : ℝ) := by
  apply inv_mul_cancel₀
  intro hz
  have := Real.sqrt_nonneg 5
  have h5 : Real.sqrt 5 = -1 := by linarith
  linarith

theorem real_d4_dir_pos (u : ℝ) (hu : 0 < u) (i : ℕ) (hi : i < 4) :
    0 < vnormSq (triNormalDir (d4Tri u i)) := by
  rw [(d4_face_bounds u i hi).1]
  positivity

theorem real_d8_dir_pos (i : ℕ) (hi : i < 8) :
    0 < vnormSq (triNormalDir (d8Tri i : Tri ℝ)) := by
  rw [(d8_face_bounds i hi).1]
  norm_num

theorem real_d20_dir_pos (t k : ℝ) (hT : t^2 = t + 1) (ht1 : 1 < t) (hk : 0 < k)
    (i : ℕ) (hi : i < 20) :
    0 < vnormSq (triNormalDir (icosaTri t k i)) := by
  rw [(d20_face_bounds t k hT ht1 i hi).1]
  positivity

theorem real_d10_dir_pos (t s w : ℝ) (hT : t^2 = t + 1) (ht1 : 1 < t)
    (hS : s^2 = (3 - t)/4) (hW : w^2 = 40000/40441) (f : ℕ) (hf : f < 10) :
    0 < vnormSq (d10FaceDirRaw t s w f) := by
  rw [(d10_face_bounds t s w hT hS hW f hf).1]
  obtain ⟨htlow, htup⟩ := golden_bounds t hT ht1
  apply div_pos (by linarith) (by norm_num)

theorem real_d12_dir_pos (t r kd : ℝ) (hT : t^2 = t + 1) (ht1 : 1 < t)
    (hrt : r * t = 1) (hkd : 0 < kd) :
    0 < vnormSq (d12FaceDirRaw t r kd 11) := by
  have hr' := dodeca_r_eq t r hT ht1 hrt
  subst hr'
  rw [(d12_face11_facts t kd hT).1]
  obtain ⟨htlow, htup⟩ := golden_bounds t hT ht1
  have : (0:ℝ) < 28 - 16*t := by linarith
  positivity

theorem real_d12_dir0_pos (t r kd : ℝ) (hT : t^2 = t + 1) (ht1 : 1 < t)
    (hrt : r * t = 1) (hkd : 0 < kd) :
    0 < vnormSq (d12FaceDirRaw t r kd 0) := by
  have hr' := dodeca_r_eq t r hT ht1 hrt
  subst hr'
  rw [d12_face0_normSq t kd hT]
  obtain ⟨htlow, htup⟩ := golden_bounds t hT ht1
  have : (0:ℝ) < 28 - 16*t := by linarith
  positivity

/-- Package the two normalisation lengths of a triangle-soup face over the
reals: `rho = √‖dir‖²` and `ell = √‖avg‖²` satisfy their defining
equations. -/
theorem tri_lengths_spec (tr : Tri ℝ) (h : 0 < vnormSq (triNormalDir tr)) :
    (Real.sqrt (vnormSq (triNormalDir tr)))^2 = vnormSq (triNormalDir tr)
    ∧ 0 < Real.sqrt (vnormSq (triNormalDir tr))
    ∧ (Real.sqrt (vnormSq (rollAvgNormal tr (Real.sqrt (vnormSq (triNormalDir tr))))))^2
        = vnormSq (rollAvgNormal tr (Real.sqrt (vnormSq (triNormalDir tr))))
    ∧ 0 < Real.sqrt (vnormSq (rollAvgNormal tr (Real.sqrt (vnormSq (triNormalDir tr))))) := by
  obtain ⟨h1, h2⟩ := sqrt_norm_spec _ h
  refine ⟨h1, h2, Real.sq_sqrt (vnormSq_nonneg _), ?_⟩
  apply Real.sqrt_pos.mpr
  rw [rollAvgNormal_eq, normalizeWith_unit _ _ h1 (ne_of_gt h2)]
  norm_num

end Dice

namespace Dice

/-- Witness for C8 at the genuine real constants of every die: golden ratio
`(1+√5)/2`, `sin(π/5)`, the sphere-projection factors `1/√3`,
`1/√(1+t²)`, `1/√1.011025`, the Euler half-angle `√2/2`, and the actual
normal lengths as real square roots. -/
theorem c8_initial_orientation_aligns_witness :
    (applyAsUnit (d4InitialQuat ((Real.sqrt 3)⁻¹) (Real.sqrt (vnormSq (triNormalDir (d4Tri ((Real.sqrt 3)⁻¹) 3)))) (Real.sqrt (vnormSq (rollAvgNormal (d4Tri ((Real.sqrt 3)⁻¹) 3) (Real.sqrt (vnormSq (triNormalDir (d4Tri ((Real.sqrt 3)⁻¹) 3))))))))
      (rollFaceNormal (d4Tri ((Real.sqrt 3)⁻¹) 3) (Real.sqrt (vnormSq (triNormalDir (d4Tri ((Real.sqrt 3)⁻¹) 3)))) (Real.sqrt (vnormSq (rollAvgNormal (d4Tri ((Real.sqrt 3)⁻¹) 3) (Real.sqrt (vnormSq (triNormalDir (d4Tri ((Real.sqrt 3)⁻¹) 3)))))))) = forwardRef)
    ∧ (applyAsUnit (d6InitialQuat ((Real.sqrt 2)/2)) (d6FaceNormal 6) = forwardRef)
    ∧ (applyAsUnit (d8InitialQuat (Real.sqrt (vnormSq (triNormalDir (d8Tri 7 : Tri ℝ)))) (Real.sqrt (vnormSq (rollAvgNormal (d8Tri 7 : Tri ℝ) (Real.sqrt (vnormSq (triNormalDir (d8Tri 7 : Tri ℝ))))))))
      (rollFaceNormal (d8Tri 7 : Tri ℝ) (Real.sqrt (vnormSq (triNormalDir (d8Tri 7 : Tri ℝ)))) (Real.sqrt (vnormSq (rollAvgNormal (d8Tri 7 : Tri ℝ) (Real.sqrt (vnormSq (triNormalDir (d8Tri 7 : Tri ℝ)))))))) = forwardRef)
    ∧ (applyAsUnit (d10InitialQuat ((1 + Real.sqrt 5)/2) (Real.sin (Real.pi/5)) ((Real.sqrt (40441/40000))⁻¹) (Real.sqrt (vnormSq (d10FaceDirRaw ((1 + Real.sqrt 5)/2) (Real.sin (Real.pi/5)) ((Real.sqrt (40441/40000))⁻¹) 9))))
      (d10FaceNormal ((1 + Real.sqrt 5)/2) (Real.sin (Real.pi/5)) ((Real.sqrt (40441/40000))⁻¹) (Real.sqrt (vnormSq (d10FaceDirRaw ((1 + Real.sqrt 5)/2) (Real.sin (Real.pi/5)) ((Real.sqrt (40441/40000))⁻¹) 9))) 9) = forwardRef)
    ∧ (applyAsUnit (d12InitialQuat ((1 + Real.sqrt 5)/2) (((1 + Real.sqrt 5)/2)⁻¹) ((Real.sqrt 3)⁻¹) (Real.sqrt (vnormSq (d12FaceDirRaw ((1 + Real.sqrt 5)/2) (((1 + Real.sqrt 5)/2)⁻¹) ((Real.sqrt 3)⁻¹) 11))))
      (d12FaceNormal ((1 + Real.sqrt 5)/2) (((1 + Real.sqrt 5)/2)⁻¹) ((Real.sqrt 3)⁻¹) (Real.sqrt (vnormSq (d12FaceDirRaw ((1 + Real.sqrt 5)/2) (((1 + Real.sqrt 5)/2)⁻¹) ((Real.sqrt 3)⁻¹) 11))) 11) = forwardRef)
    ∧ (applyAsUnit (d20InitialQuat ((1 + Real.sqrt 5)/2) ((Real.sqrt (1 + ((1 + Real.sqrt 5)/2)^2))⁻¹) (Real.sqrt (vnormSq (triNormalDir (icosaTri ((1 + Real.sqrt 5)/2) ((Real.sqrt (1 + ((1 + Real.sqrt 5)/2)^2))⁻¹) 19)))) (Real.sqrt (vnormSq (rollAvgNormal (icosaTri ((1 + Real.sqrt 5)/2) ((Real.sqrt (1 + ((1 + Real.sqrt 5)/2)^2))⁻¹) 19) (Real.sqrt (vnormSq (triNormalDir (icosaTri ((1 + Real.sqrt 5)/2) ((Real.sqrt (1 + ((1 + Real.sqrt 5)/2)^2))⁻¹) 19))))))))
      (rollFaceNormal (icosaTri ((1 + Real.sqrt 5)/2) ((Real.sqrt (1 + ((1 + Real.sqrt 5)/2)^2))⁻¹) 19) (Real.sqrt (vnormSq (triNormalDir (icosaTri ((1 + Real.sqrt 5)/2) ((Real.sqrt (1 + ((1 + Real.sqrt 5)/2)^2))⁻¹) 19)))) (Real.sqrt (vnormSq (rollAvgNormal (icosaTri ((1 + Real.sqrt 5)/2) ((Real.sqrt (1 + ((1 + Real.sqrt 5)/2)^2))⁻¹) 19) (Real.sqrt (vnormSq (triNormalDir (icosaTri ((1 + Real.sqrt 5)/2) ((Real.sqrt (1 + ((1 + Real.sqrt 5)/2)^2))⁻¹) 19)))))))) = forwardRef) := by
  have hu := real_u_pos
  have hT := real_golden_sq
  have ht1 := real_golden_gt_one
  have hS := real_sin36_spec
  have hW := real_d10w_spec
  have hrt := real_r_spec
  have hk := real_k_pos
  obtain ⟨h4a, h4b, h4c, h4d⟩ := tri_lengths_spec (d4Tri ((Real.sqrt 3)⁻¹) 3) (real_d4_dir_pos _ hu 3 (by norm_num))
  obtain ⟨h8a, h8b, h8c, h8d⟩ := tri_lengths_spec (d8Tri 7 : Tri ℝ) (real_d8_dir_pos 7 (by norm_num))
  obtain ⟨h10a, h10b⟩ := sqrt_norm_spec _ (real_d10_dir_pos _ _ _ hT ht1 hS.1 hW.1 9 (by norm_num))
  obtain ⟨h12a, h12b⟩ := sqrt_norm_spec _ (real_d12_dir_pos _ _ _ hT ht1 hrt hu)
  obtain ⟨h20a, h20b, h20c, h20d⟩ := tri_lengths_spec (icosaTri ((1 + Real.sqrt 5)/2) ((Real.sqrt (1 + ((1 + Real.sqrt 5)/2)^2))⁻¹) 19)
    (real_d20_dir_pos _ _ hT ht1 hk 19 (by norm_num))
  refine ⟨?_, ?_, ?_, ?_, ?_, ?_⟩
  · exact c8_initial_orientation_aligns.1 _ _ _ hu h4a h4b h4c h4d
  · exact c8_initial_orientation_aligns.2.1 _ real_h_spec
  · exact c8_initial_orientation_aligns.2.2.1 _ _ h8a h8b h8c h8d
  · exact c8_initial_orientation_aligns.2.2.2.1 _ _ _ _ hT ht1 hS.1 hW.1 h10a h10b
  · exact c8_initial_orientation_aligns.2.2.2.2.1 _ _ _ _ hT ht1 hrt hu h12a h12b
  · exact c8_initial_orientation_aligns.2.2.2.2.2 _ _ _ _ hT ht1 hk h20a h20b h20c h20d

/-- Witness for the amended C2 at the genuine real constants, for face
index 0 of each solver-based die and face 1 of the D6. -/
theorem c2_amended_witness :
    (applyAsUnit (d4TargetQuat ((Real.sqrt 3)⁻¹) (Real.sqrt (vnormSq (triNormalDir (d4Tri ((Real.sqrt 3)⁻¹) 0)))) (Real.sqrt (vnormSq (rollAvgNormal (d4Tri ((Real.sqrt 3)⁻¹) 0) (Real.sqrt (vnormSq (triNormalDir (d4Tri ((Real.sqrt 3)⁻¹) 0))))))) 0)
      (rollFaceNormal (d4Tri ((Real.sqrt 3)⁻¹) 0) (Real.sqrt (vnormSq (triNormalDir (d4Tri ((Real.sqrt 3)⁻¹) 0)))) (Real.sqrt (vnormSq (rollAvgNormal (d4Tri ((Real.sqrt 3)⁻¹) 0) (Real.sqrt (vnormSq (triNormalDir (d4Tri ((Real.sqrt 3)⁻¹) 0)))))))) = forwardRef)
    ∧ (applyAsUnit (d6FaceQuat ((Real.sqrt 2)/2) 1) (d6FaceNormal 1) = forwardRef)
    ∧ (applyAsUnit (d8TargetQuat (Real.sqrt (vnormSq (triNormalDir (d8Tri 0 : Tri ℝ)))) (Real.sqrt (vnormSq (rollAvgNormal (d8Tri 0 : Tri ℝ) (Real.sqrt (vnormSq (triNormalDir (d8Tri 0 : Tri ℝ))))))) 0)
      (rollFaceNormal (d8Tri 0 : Tri ℝ) (Real.sqrt (vnormSq (triNormalDir (d8Tri 0 : Tri ℝ)))) (Real.sqrt (vnormSq (rollAvgNormal (d8Tri 0 : Tri ℝ) (Real.sqrt (vnormSq (triNormalDir (d8Tri 0 : Tri ℝ)))))))) = forwardRef)
    ∧ (applyAsUnit (d10TargetQuat ((1 + Real.sqrt 5)/2) (Real.sin (Real.pi/5)) ((Real.sqrt (40441/40000))⁻¹) (Real.sqrt (vnormSq (d10FaceDirRaw ((1 + Real.sqrt 5)/2) (Real.sin (Real.pi/5)) ((Real.sqrt (40441/40000))⁻¹) 0))) 0)
      (d10FaceNormal ((1 + Real.sqrt 5)/2) (Real.sin (Real.pi/5)) ((Real.sqrt (40441/40000))⁻¹) (Real.sqrt (vnormSq (d10FaceDirRaw ((1 + Real.sqrt 5)/2) (Real.sin (Real.pi/5)) ((Real.sqrt (40441/40000))⁻¹) 0))) 0) = forwardRef)
    ∧ (applyAsUnit (d20TargetQuat ((1 + Real.sqrt 5)/2) ((Real.sqrt (1 + ((1 + Real.sqrt 5)/2)^2))⁻¹) (Real.sqrt (vnormSq (triNormalDir (icosaTri ((1 + Real.sqrt 5)/2) ((Real.sqrt (1 + ((1 + Real.sqrt 5)/2)^2))⁻¹) 0)))) (Real.sqrt (vnormSq (rollAvgNormal (icosaTri ((1 + Real.sqrt 5)/2) ((Real.sqrt (1 + ((1 + Real.sqrt 5)/2)^2))⁻¹) 0) (Real.sqrt (vnormSq (triNormalDir (icosaTri ((1 + Real.sqrt 5)/2) ((Real.sqrt (1 + ((1 + Real.sqrt 5)/2)^2))⁻¹) 0))))))) 0)
      (rollFaceNormal (icosaTri ((1 + Real.sqrt 5)/2) ((Real.sqrt (1 + ((1 + Real.sqrt 5)/2)^2))⁻¹) 0) (Real.sqrt (vnormSq (triNormalDir (icosaTri ((1 + Real.sqrt 5)/2) ((Real.sqrt (1 + ((1 + Real.sqrt 5)/2)^2))⁻¹) 0)))) (Real.sqrt (vnormSq (rollAvgNormal (icosaTri ((1 + Real.sqrt 5)/2) ((Real.sqrt (1 + ((1 + Real.sqrt 5)/2)^2))⁻¹) 0) (Real.sqrt (vnormSq (triNormalDir (icosaTri ((1 + Real.sqrt 5)/2) ((Real.sqrt (1 + ((1 + Real.sqrt 5)/2)^2))⁻¹) 0)))))))) = forwardRef)
    ∧ (applyAsUnit (d12TargetQuat ((1 + Real.sqrt 5)/2) ((Real.sqrt (1 + ((1 + Real.sqrt 5)/2)^2))⁻¹) (Real.sqrt (vnormSq (triNormalDir (icosaTri ((1 + Real.sqrt 5)/2) ((Real.sqrt (1 + ((1 + Real.sqrt 5)/2)^2))⁻¹) 0)))) (Real.sqrt (vnormSq (rollAvgNormal (icosaTri ((1 + Real.sqrt 5)/2) ((Real.sqrt (1 + ((1 + Real.sqrt 5)/2)^2))⁻¹) 0) (Real.sqrt (vnormSq (triNormalDir (icosaTri ((1 + Real.sqrt 5)/2) ((Real.sqrt (1 + ((1 + Real.sqrt 5)/2)^2))⁻¹) 0))))))) 0)
      (rollFaceNormal (icosaTri ((1 + Real.sqrt 5)/2) ((Real.sqrt (1 + ((1 + Real.sqrt 5)/2)^2))⁻¹) 0) (Real.sqrt (vnormSq (triNormalDir (icosaTri ((1 + Real.sqrt 5)/2) ((Real.sqrt (1 + ((1 + Real.sqrt 5)/2)^2))⁻¹) 0)))) (Real.sqrt (vnormSq (rollAvgNormal (icosaTri ((1 + Real.sqrt 5)/2) ((Real.sqrt (1 + ((1 + Real.sqrt 5)/2)^2))⁻¹) 0) (Real.sqrt (vnormSq (triNormalDir (icosaTri ((1 + Real.sqrt 5)/2) ((Real.sqrt (1 + ((1 + Real.sqrt 5)/2)^2))⁻¹) 0)))))))) = forwardRef) := by
  have hu := real_u_pos
  have hT := real_golden_sq
  have ht1 := real_golden_gt_one
  have hS := real_sin36_spec
  have hW := real_d10w_spec
  have hk := real_k_pos
  obtain ⟨h4a, h4b, h4c, h4d⟩ := tri_lengths_spec (d4Tri ((Real.sqrt 3)⁻¹) 0) (real_d4_dir_pos _ hu 0 (by norm_num))
  obtain ⟨h8a, h8b, h8c, h8d⟩ := tri_lengths_spec (d8Tri 0 : Tri ℝ) (real_d8_dir_pos 0 (by norm_num))
  obtain ⟨h10a, h10b⟩ := sqrt_norm_spec _ (real_d10_dir_pos _ _ _ hT ht1 hS.1 hW.1 0 (by norm_num))
  obtain ⟨h20a, h20b, h20c, h20d⟩ := tri_lengths_spec (icosaTri ((1 + Real.sqrt 5)/2) ((Real.sqrt (1 + ((1 + Real.sqrt 5)/2)^2))⁻¹) 0)
    (real_d20_dir_pos _ _ hT ht1 hk 0 (by norm_num))
  refine ⟨?_, ?_, ?_, ?_, ?_, ?_⟩
  · exact c2_amended.1 _ _ _ 0 (by norm_num) hu h4a h4b h4c h4d
  · exact c2_amended.2.1 _ 1 (by norm_num) (by norm_num) real_h_spec
  · exact c2_amended.2.2.1 _ _ 0 (by norm_num) h8a h8b h8c h8d
  · exact c2_amended.2.2.2.1 _ _ _ _ 0 (by norm_num) hT ht1 hS.1 hW.1 h10a h10b
  · exact c2_amended.2.2.2.2.1 _ _ _ _ 0 (by norm_num) hT ht1 hk h20a h20b h20c h20d
  · exact c2_amended.2.2.2.2.2 _ _ _ _ 0 (by norm_num) hT ht1 hk h20a h20b h20c h20d

/-- C2 counterexample, at the genuine real constants: the roll target the
D12 commands for face index 0 leaves the D12's *own* `faceData[0]` normal
at squared distance greater than `1e-6` (that is, more than `1e-3` away)
from the forward direction — the claim that every die's commanded target
maps the selected face's normal from its own face table onto `(0,0,1)`
within `1e-3` is false for D12. -/
theorem c2_counterexample :
    1/1000000 < vnormSq (vsub (applyAsUnit
      (d12TargetQuat ((1 + Real.sqrt 5)/2) ((Real.sqrt (1 + ((1 + Real.sqrt 5)/2)^2))⁻¹) (Real.sqrt (vnormSq (triNormalDir (icosaTri ((1 + Real.sqrt 5)/2) ((Real.sqrt (1 + ((1 + Real.sqrt 5)/2)^2))⁻¹) 0)))) (Real.sqrt (vnormSq (rollAvgNormal (icosaTri ((1 + Real.sqrt 5)/2) ((Real.sqrt (1 + ((1 + Real.sqrt 5)/2)^2))⁻¹) 0) (Real.sqrt (vnormSq (triNormalDir (icosaTri ((1 + Real.sqrt 5)/2) ((Real.sqrt (1 + ((1 + Real.sqrt 5)/2)^2))⁻¹) 0))))))) 0)
      (d12FaceNormal ((1 + Real.sqrt 5)/2) (((1 + Real.sqrt 5)/2)⁻¹) ((Real.sqrt 3)⁻¹) (Real.sqrt (vnormSq (d12FaceDirRaw ((1 + Real.sqrt 5)/2) (((1 + Real.sqrt 5)/2)⁻¹) ((Real.sqrt 3)⁻¹) 0))) 0)) forwardRef) := by
  have hu := real_u_pos
  have hT := real_golden_sq
  have ht1 := real_golden_gt_one
  have hrt := real_r_spec
  have hk := real_k_pos
  obtain ⟨hIa, hIb, hIc, hId⟩ := tri_lengths_spec (icosaTri ((1 + Real.sqrt 5)/2) ((Real.sqrt (1 + ((1 + Real.sqrt 5)/2)^2))⁻¹) 0)
    (real_d20_dir_pos _ _ hT ht1 hk 0 (by norm_num))
  obtain ⟨hDa, hDb⟩ := sqrt_norm_spec _ (real_d12_dir0_pos _ _ _ hT ht1 hrt hu)
  exact d12_misalignment _ _ _ _ _ _ _ hT ht1 hrt hu hk hIa hIb hIc hId hDa hDb

end Dice
namespace Dice

variable {F : Type} [LinearOrderedField F]

/-- Squared Euclidean distance between two points.  `THREE.Vector3.distanceTo`
returns the square root of this; the square root is strictly monotone on
nonnegative values, so the `d < bestDist` comparisons in `faceData`'s
nearest-vertex loop compare exactly like the squared distances used here. -/
def distSq (a b : Vec3 F) : F := vnormSq (vsub a b)

theorem distSq_nonneg (a b : Vec3 F) : 0 ≤ distSq a b := vnormSq_nonneg _

theorem distSq_self (a : Vec3 F) : distSq a a = 0 := by
  obtain ⟨ax, ay, az⟩ := a
  simp [distSq, vsub, vnormSq]

/-- One step of `faceData`'s nearest-vertex loop: the accumulator `(best,
bestDist)` is replaced only when the candidate is strictly nearer
(`if (d < bestDist)`). -/
def nearestAcc (target : Vec3 F) (acc : Vec3 F × F) (c : Vec3 F) : Vec3 F × F :=
  if distSq target c < acc.2 then (c, distSq target c) else acc

theorem foldl_nearestAcc_zero (target v : Vec3 F) :
    ∀ l : List (Vec3 F), l.foldl (nearestAcc target) (v, 0) = (v, 0)
  | [] => rfl
  | c :: rest => by
      rw [List.foldl_cons]
      have h : nearestAcc target (v, 0) c = (v, 0) := by
        simp only [nearestAcc]
        exact if_neg (not_lt.mpr (distSq_nonneg target c))
      rw [h]
      exact foldl_nearestAcc_zero target v rest

/-- `apexTarget` of `D10.js`'s `faceData`:
`center.z >= 0 ? topApex : bottomApex`. -/
def d10ApexTarget (t s w : F) (f : ℕ) : Vec3 F :=
  if 0 ≤ (d10FaceCenter t s w f).z then ⟨0, 0, 1⟩ else ⟨0, 0, -1⟩

/-- `best` after `faceData`'s loop over `candidates = [v0, v1, v2]` (the
vertices of the face's first backing triangle), starting from
`best = candidates[0]`, `bestDist = apexTarget.distanceTo(best)`. -/
def d10BestVert (t s w : F) (f : ℕ) : Vec3 F :=
  ([(d10Tri t s w (2 * f)).a, (d10Tri t s w (2 * f)).b,
    (d10Tri t s w (2 * f)).c].foldl
    (nearestAcc (d10ApexTarget t s w f))
    ((d10Tri t s w (2 * f)).a,
      distSq (d10ApexTarget t s w f) (d10Tri t s w (2 * f)).a)).1

/-- `faceData[f].topDir = best.clone().sub(center)`. -/
def d10TopDir (t s w : F) (f : ℕ) : Vec3 F :=
  vsub (d10BestVert t s w f) (d10FaceCenter t s w f)

/-- The up direction `makeFaceLabel` gives the face label: with
`faceUp = apexDir.normalize()` (length `lu`), `zAxis` the unit face normal,
and `xAxis = cross(faceUp, zAxis).normalize()` (length `lx`), this is the
label basis's `yAxis = cross(zAxis, xAxis).normalize()` (length `ly`). -/
def d10LabelUp (t s w rho lu lx ly : F) (f : ℕ) : Vec3 F :=
  normalizeWith
    (vcross (d10FaceNormal t s w rho f)
      (normalizeWith (vcross (normalizeWith (d10TopDir t s w f) lu)
        (d10FaceNormal t s w rho f)) lx)) ly

/-- Projection of `v` onto the plane through the origin orthogonal to the
unit vector `n`. -/
def projPlane (n v : Vec3 F) : Vec3 F :=
  vsub v (vsmul (vdot n v) n)

/-- Claim-side choice of pole: whichever of `(0,0,1)` and `(0,0,-1)` is
nearer the face's centroid (on squared distances, which compare like
distances). -/
def d10NearerPole (t s w : F) (f : ℕ) : Vec3 F :=
  if distSq (d10FaceCenter t s w f) ⟨0, 0, 1⟩
      < distSq (d10FaceCenter t s w f) ⟨0, 0, -1⟩
  then ⟨0, 0, 1⟩ else ⟨0, 0, -1⟩

/-- Claim-side nearest vertex of a list to `target`: minimum distance, ties
broken in favour of the first-encountered vertex (strict-improvement fold
from the head). -/
def nearestVert (target : Vec3 F) : List (Vec3 F) → Vec3 F
  | [] => ⟨0, 0, 0⟩
  | v :: rest => (rest.foldl (nearestAcc target) (v, distSq target v)).1

/-- The constituent vertices of physical face `f`, in encounter order: the
vertices of its two backing triangles as laid out in the position buffer. -/
def d10FaceVerts (t s w : F) (f : ℕ) : List (Vec3 F) :=
  [(d10Tri t s w (2 * f)).a, (d10Tri t s w (2 * f)).b, (d10Tri t s w (2 * f)).c,
   (d10Tri t s w (2 * f + 1)).a, (d10Tri t s w (2 * f + 1)).b,
   (d10Tri t s w (2 * f + 1)).c]

/-- Claim C7's description of the label up direction: the direction from the
face centre toward the constituent vertex nearest the pole nearer the
centroid, projected onto the face plane and normalized (length `ltau`). -/
def d10SpecUp (t s w rho ltau : F) (f : ℕ) : Vec3 F :=
  normalizeWith (projPlane (d10FaceNormal t s w rho f)
    (vsub (nearestVert (d10NearerPole t s w f) (d10FaceVerts t s w f))
      (d10FaceCenter t s w f))) ltau

theorem pole_nearer_iff (c : Vec3 F) :
    distSq c ⟨0, 0, 1⟩ < distSq c ⟨0, 0, -1⟩ ↔ 0 < c.z := by
  obtain ⟨cx, cy, cz⟩ := c
  simp only [distSq, vsub, vnormSq]
  constructor <;> intro h <;> nlinarith [h]

/-- Every top face's centre has height exactly `1/3`: the two equatorial
vertices of its first triangle have opposite heights `±0.105·w`. -/
theorem d10_center_z_top (t s w : F) (f : ℕ) (hf : f < 5) :
    (d10FaceCenter t s w f).z = 1/3 := by
  interval_cases f <;>
    simp only [d10FaceCenter, d10Tri, d10TriRow, d10Vert, vadd, vsmul] <;>
    ring

/-- Every bottom face's centre has height exactly `-1/3`. -/
theorem d10_center_z_bot (t s w : F) (f : ℕ) (h5 : 5 ≤ f) (hf : f < 10) :
    (d10FaceCenter t s w f).z = -(1/3) := by
  interval_cases f <;>
    simp only [d10FaceCenter, d10Tri, d10TriRow, d10Vert, vadd, vsmul] <;>
    ring

/-- Both the code's `apexTarget` and the claim's nearer pole are the apex
vertex of face `f`'s first triangle (its first-listed vertex). -/
theorem d10_apex_eq (t s w : F) (f : ℕ) (hf : f < 10) :
    d10ApexTarget t s w f = (d10Tri t s w (2 * f)).a ∧
      d10NearerPole t s w f = (d10Tri t s w (2 * f)).a := by
  rcases lt_or_ge f 5 with h5 | h5
  · have hz := d10_center_z_top t s w f h5
    have hzpos : (0 : F) < (d10FaceCenter t s w f).z := by rw [hz]; norm_num
    have ha : (d10Tri t s w (2 * f)).a = (⟨0, 0, 1⟩ : Vec3 F) := by
      interval_cases f <;> rfl
    refine ⟨?_, ?_⟩
    · simp only [d10ApexTarget]
      rw [if_pos hzpos.le, ha]
    · simp only [d10NearerPole]
      rw [if_pos ((pole_nearer_iff _).mpr hzpos), ha]
  · have hz := d10_center_z_bot t s w f h5 hf
    have hzneg : (d10FaceCenter t s w f).z < 0 := by rw [hz]; norm_num
    have ha : (d10Tri t s w (2 * f)).a = (⟨0, 0, -1⟩ : Vec3 F) := by
      interval_cases f <;> rfl
    refine ⟨?_, ?_⟩
    · simp only [d10ApexTarget]
      rw [if_neg (not_le.mpr hzneg), ha]
    · simp only [d10NearerPole]
      rw [if_neg (fun hcon => absurd ((pole_nearer_iff _).mp hcon)
        (not_lt.mpr hzneg.le)), ha]

/-- The code loop's `best` is the apex vertex: the loop starts there at
distance `0` and no candidate is strictly nearer. -/
theorem d10BestVert_eq (t s w : F) (f : ℕ) (hf : f < 10) :
    d10BestVert t s w f = (d10Tri t s w (2 * f)).a := by
  simp only [d10BestVert]
  rw [(d10_apex_eq t s w f hf).1, distSq_self, foldl_nearestAcc_zero]

/-- The claim-side nearest constituent vertex to the nearer pole is that
same apex vertex. -/
theorem d10SpecBest_eq (t s w : F) (f : ℕ) (hf : f < 10) :
    nearestVert (d10NearerPole t s w f) (d10FaceVerts t s w f)
      = (d10Tri t s w (2 * f)).a := by
  simp only [d10FaceVerts, nearestVert]
  rw [(d10_apex_eq t s w f hf).2, distSq_self, foldl_nearestAcc_zero]

theorem vcross_vsmul_left (k : F) (a b : Vec3 F) :
    vcross (vsmul k a) b = vsmul k (vcross a b) := by
  obtain ⟨ax, ay, az⟩ := a
  obtain ⟨bx, by', bz⟩ := b
  simp only [vcross, vsmul, Vec3.mk.injEq]
  refine ⟨by ring, by ring, by ring⟩

theorem vcross_vsmul_right (k : F) (a b : Vec3 F) :
    vcross a (vsmul k b) = vsmul k (vcross a b) := by
  obtain ⟨ax, ay, az⟩ := a
  obtain ⟨bx, by', bz⟩ := b
  simp only [vcross, vsmul, Vec3.mk.injEq]
  refine ⟨by ring, by ring, by ring⟩

theorem vsmul_vsmul (k l : F) (v : Vec3 F) :
    vsmul k (vsmul l v) = vsmul (k * l) v := by
  obtain ⟨vx, vy, vz⟩ := v
  simp only [vsmul, Vec3.mk.injEq]
  refine ⟨by ring, by ring, by ring⟩

theorem vdot_comm (a b : Vec3 F) : vdot a b = vdot b a := by
  obtain ⟨ax, ay, az⟩ := a
  obtain ⟨bx, by', bz⟩ := b
  simp only [vdot]
  ring

theorem vdot_cross_right (n v : Vec3 F) : vdot n (vcross v n) = 0 := by
  obtain ⟨nx, ny, nz⟩ := n
  obtain ⟨vx, vy, vz⟩ := v
  simp only [vdot, vcross]
  ring

/-- Vector triple product `n × (v × n) = (n·n)·v − (n·v)·n`. -/
theorem vcross_triple (n v : Vec3 F) :
    vcross n (vcross v n) = vsub (vsmul (vnormSq n) v) (vsmul (vdot n v) n) := by
  obtain ⟨nx, ny, nz⟩ := n
  obtain ⟨vx, vy, vz⟩ := v
  simp only [vcross, vsub, vsmul, vnormSq, vdot, Vec3.mk.injEq]
  refine ⟨by ring, by ring, by ring⟩

/-- Lagrange's identity for the squared length of a cross product. -/
theorem vnormSq_vcross (a b : Vec3 F) :
    vnormSq (vcross a b) = vnormSq a * vnormSq b - (vdot a b)^2 := by
  obtain ⟨ax, ay, az⟩ := a
  obtain ⟨bx, by', bz⟩ := b
  simp only [vcross, vnormSq, vdot]
  ring

theorem vnormSq_projPlane (n u : Vec3 F) (hn : vnormSq n = 1) :
    vnormSq (projPlane n u) = vnormSq u - (vdot n u)^2 := by
  obtain ⟨nx, ny, nz⟩ := n
  obtain ⟨ux, uy, uz⟩ := u
  simp only [vnormSq] at hn
  simp only [projPlane, vsub, vsmul, vdot, vnormSq]
  linear_combination ((nx * ux + ny * uy + nz * uz)^2) * hn

/-- For a unit normal the in-plane projection has the same squared length
as the cross product with the normal. -/
theorem projPlane_normSq_eq_cross (n u : Vec3 F) (hn : vnormSq n = 1) :
    vnormSq (projPlane n u) = vnormSq (vcross u n) := by
  rw [vnormSq_projPlane n u hn, vnormSq_vcross, hn, mul_one, vdot_comm u n]

/-- Two positive scalars with equal squares are equal. -/
theorem pos_sq_eq (a b : F) (ha : 0 < a) (hb : 0 < b) (h : a^2 = b^2) :
    a = b := by
  have h2 : (a - b) * (a + b) = 0 := by linear_combination h
  rcases mul_eq_zero.mp h2 with h3 | h3
  · linarith
  · linarith

/-- Crossing a unit vector with a normalized vector orthogonal to it gives
a unit vector. -/
theorem cross_unit_perp (n B : Vec3 F) (lx : F) (hn : vnormSq n = 1)
    (hperp : vdot n B = 0) (hlx : lx^2 = vnormSq B) (hlxne : lx ≠ 0) :
    vnormSq (vcross n (normalizeWith B lx)) = 1 := by
  rw [normalizeWith, vcross_vsmul_right, vnormSq_vsmul, vnormSq_vcross, hn,
    hperp, ← hlx]
  field_simp

/-- The basis chain of `makeFaceLabel` collapses: `yAxis = zAxis × xAxis`
(re-normalized) is exactly the normalized projection of the raw apex
direction `u` onto the plane orthogonal to the unit normal `n`. -/
theorem label_up_eq_proj (n u : Vec3 F) (lu lx ly ltau : F)
    (hn : vnormSq n = 1) (hlupos : 0 < lu)
    (hlx : lx^2 = vnormSq (vcross (normalizeWith u lu) n)) (hlxpos : 0 < lx)
    (hly : ly^2 = vnormSq (vcross n
      (normalizeWith (vcross (normalizeWith u lu) n) lx))) (hlypos : 0 < ly)
    (hltau : ltau^2 = vnormSq (projPlane n u)) (hltaupos : 0 < ltau) :
    normalizeWith (vcross n (normalizeWith (vcross (normalizeWith u lu) n) lx)) ly
      = normalizeWith (projPlane n u) ltau := by
  have hx1 : vcross (normalizeWith u lu) n = vsmul lu⁻¹ (vcross u n) := by
    rw [normalizeWith, vcross_vsmul_left]
  have h1 : (lu * lx)^2 = vnormSq (vcross u n) := by
    rw [hx1, vnormSq_vsmul] at hlx
    field_simp at hlx
    linear_combination hlx
  have htr : vcross n (vcross u n) = projPlane n u := by
    rw [vcross_triple, hn, vsmul_one, projPlane]
  have hyinner : vcross n (normalizeWith (vcross (normalizeWith u lu) n) lx)
      = vsmul (lx⁻¹ * lu⁻¹) (projPlane n u) := by
    rw [hx1, normalizeWith, vsmul_vsmul, vcross_vsmul_right, htr]
  have hprojA : vnormSq (projPlane n u) = vnormSq (vcross u n) :=
    projPlane_normSq_eq_cross n u hn
  have h4 : ltau = lu * lx :=
    pos_sq_eq _ _ hltaupos (mul_pos hlupos hlxpos) (by rw [hltau, hprojA, ← h1])
  have h3 : ly = 1 :=
    pos_sq_eq _ _ hlypos one_pos (by
      rw [hly, one_pow]
      exact cross_unit_perp n _ lx hn (vdot_cross_right n _) hlx hlxpos.ne')
  rw [hyinner, normalizeWith, normalizeWith, vsmul_vsmul, h3, h4]
  have hsc : (1 : F)⁻¹ * (lx⁻¹ * lu⁻¹) = (lu * lx)⁻¹ := by
    rw [inv_one, one_mul, mul_inv]
    exact mul_comm _ _
  rw [hsc]

/-- Squared length of `faceData[0].topDir`: an affine function of the
golden ratio. -/
theorem d10_topdir_normSq (t s w : F) (hT : t^2 = t + 1) (hS : s^2 = (3 - t)/4)
    (hW : w^2 = 40000/40441) :
    vnormSq (d10TopDir t s w 0) = (40000/363969 : F) * t + 80588/121323 := by
  simp only [d10TopDir]
  rw [d10BestVert_eq t s w 0 (by norm_num)]
  simp only [d10FaceCenter, d10Tri, d10TriRow, d10Vert, vadd, vsub, vsmul, vnormSq]
  norm_num
  linear_combination ((1/36) * w^2) * hT + ((1/9) * w^2) * hS + ((1/9) * t + 2/9) * hW

theorem d10_topdir_pos (t s w : F) (hT : t^2 = t + 1) (ht1 : 1 < t)
    (hS : s^2 = (3 - t)/4) (hW : w^2 = 40000/40441) :
    0 < vnormSq (d10TopDir t s w 0) := by
  rw [d10_topdir_normSq t s w hT hS hW]
  linarith

/-- Squared length of `topDir × rawNormal` on face 0: an affine function of
the golden ratio. -/
theorem d10_topdir_cross_normSq (t s w : F) (hT : t^2 = t + 1)
    (hS : s^2 = (3 - t)/4) (hW : w^2 = 40000/40441) :
    vnormSq (vcross (d10TopDir t s w 0) (d10FaceDirRaw t s w 0))
      = (1000820467840000/595262011375089 : F)
        - (128235200000000/198420670458363) * t := by
  simp only [d10TopDir]
  rw [d10BestVert_eq t s w 0 (by norm_num)]
  simp only [d10FaceCenter, d10FaceDirRaw, d10Tri, d10TriRow, d10Vert, vadd,
    vsub, vsmul, vcross, vnormSq]
  norm_num
  linear_combination ((49/640000) * t^2 * w^6 + (7/4800) * t^2 * w^5 + (1/144) * t^2 * w^4 + (441/640000) * t * w^6 + (7/960) * t * w^5 + (1/144) * t * w^4 + (20441/720000) * s^2 * w^6 + (7/600) * s^2 * w^5 + (1/18) * s^2 * w^4 + (833/320000) * w^6 + (7/800) * w^5 + (-4853/120000) * w^4 + (7/300) * w^3 + (1/9) * w^2 + (-35000000/4906423443) * w + (-20441000000000/595262011375089)) * hT + ((163969/1440000) * t * w^6 + (7/240) * t * w^5 + (1/36) * t * w^4 + (40441/360000) * s^2 * w^6 + (7/300) * s^2 * w^5 + (1/9) * s^2 * w^4 + (325733/1440000) * w^6 + (7/240) * w^5 + (72941/90000) * w^4 + (7/75) * w^3 + (4/9) * w^2) * hS + ((-163969/5760000) * t^2 * w^4 + (-7/960) * t^2 * w^3 + (-102205/2911752) * t^2 * w^2 + (-875/121323) * t^2 * w + (-511025000/14719270329) * t^2 + (199249/5760000) * t * w^4 + (7/960) * t * w^3 + (-71242141/404410000) * t * w^2 + (875/121323) * t * w + (-9106615000/14719270329) * t + (333083/1920000) * w^4 + (7/960) * w^3 + (777983803/909922500) * w^2 + (875/121323) * w + (8510512232/4906423443)) * hW

theorem d10_topdir_cross_pos (t s w : F) (hT : t^2 = t + 1) (ht1 : 1 < t)
    (hS : s^2 = (3 - t)/4) (hW : w^2 = 40000/40441) :
    0 < vnormSq (vcross (d10TopDir t s w 0) (d10FaceDirRaw t s w 0)) := by
  rw [d10_topdir_cross_normSq t s w hT hS hW]
  obtain ⟨hlow, hup⟩ := golden_bounds t hT ht1
  linarith

/-- The `xAxis` cross product of face 0's label basis is nondegenerate. -/
theorem d10_lx_pos (t s w rho lu : F) (hT : t^2 = t + 1) (ht1 : 1 < t)
    (hS : s^2 = (3 - t)/4) (hW : w^2 = 40000/40441)
    (hrhone : rho ≠ 0) (hlune : lu ≠ 0) :
    0 < vnormSq (vcross (normalizeWith (d10TopDir t s w 0) lu)
      (d10FaceNormal t s w rho 0)) := by
  simp only [d10FaceNormal, normalizeWith]
  rw [vcross_vsmul_left, vcross_vsmul_right, vsmul_vsmul, vnormSq_vsmul]
  have hc := d10_topdir_cross_pos t s w hT ht1 hS hW
  have hne : lu⁻¹ * rho⁻¹ ≠ 0 :=
    mul_ne_zero (inv_ne_zero hlune) (inv_ne_zero hrhone)
  exact mul_pos ((sq_nonneg _).lt_of_ne (Ne.symm (pow_ne_zero 2 hne))) hc

/-- The claim-side in-plane projection on face 0 is nondegenerate. -/
theorem d10_proj_pos (t s w rho : F) (hT : t^2 = t + 1) (ht1 : 1 < t)
    (hS : s^2 = (3 - t)/4) (hW : w^2 = 40000/40441)
    (hrho : rho^2 = vnormSq (d10FaceDirRaw t s w 0)) (hrhopos : 0 < rho) :
    0 < vnormSq (projPlane (d10FaceNormal t s w rho 0)
      (vsub (nearestVert (d10NearerPole t s w 0) (d10FaceVerts t s w 0))
        (d10FaceCenter t s w 0))) := by
  have hn : vnormSq (d10FaceNormal t s w rho 0) = 1 :=
    normalizeWith_unit _ _ hrho hrhopos.ne'
  rw [d10SpecBest_eq t s w 0 (by norm_num),
    ← d10BestVert_eq t s w 0 (by norm_num), ← d10TopDir]
  rw [projPlane_normSq_eq_cross _ _ hn]
  simp only [d10FaceNormal, normalizeWith]
  rw [vcross_vsmul_right, vnormSq_vsmul]
  have hc := d10_topdir_cross_pos t s w hT ht1 hS hW
  have hne : rho⁻¹ ≠ 0 := inv_ne_zero hrhopos.ne'
  exact mul_pos ((sq_nonneg _).lt_of_ne (Ne.symm (pow_ne_zero 2 hne))) hc

/-- **C7**: for every face of the 10-sided die, the up direction
`makeFaceLabel` builds for the face label (the `yAxis` of the label basis,
constructed from `faceData[f].topDir`) equals the direction from the face
centre toward the constituent vertex nearest (minimum distance, ties broken
by the first-encountered vertex) to whichever pole `(0,0,±1)` is nearer the
face's centroid, projected onto the face plane and normalized.  The lengths
`rho, lu, lx, ly, ltau` divided out by the successive `normalize()` calls
are parameters constrained to their defining equations. -/
theorem c7_label_up_is_projected_apex_direction (t s w rho lu lx ly ltau : F)
    (f : ℕ) (hf : f < 10)
    (hrho : rho^2 = vnormSq (d10FaceDirRaw t s w f)) (hrhopos : 0 < rho)
    (hlu : lu^2 = vnormSq (d10TopDir t s w f)) (hlupos : 0 < lu)
    (hlx : lx^2 = vnormSq (vcross (normalizeWith (d10TopDir t s w f) lu)
      (d10FaceNormal t s w rho f))) (hlxpos : 0 < lx)
    (hly : ly^2 = vnormSq (vcross (d10FaceNormal t s w rho f)
      (normalizeWith (vcross (normalizeWith (d10TopDir t s w f) lu)
        (d10FaceNormal t s w rho f)) lx))) (hlypos : 0 < ly)
    (hltau : ltau^2 = vnormSq (projPlane (d10FaceNormal t s w rho f)
      (vsub (nearestVert (d10NearerPole t s w f) (d10FaceVerts t s w f))
        (d10FaceCenter t s w f)))) (hltaupos : 0 < ltau) :
    d10LabelUp t s w rho lu lx ly f = d10SpecUp t s w rho ltau f := by
  have hspec : vsub (nearestVert (d10NearerPole t s w f) (d10FaceVerts t s w f))
      (d10FaceCenter t s w f) = d10TopDir t s w f := by
    rw [d10SpecBest_eq t s w f hf, ← d10BestVert_eq t s w f hf]
    rfl
  have hn : vnormSq (d10FaceNormal t s w rho f) = 1 :=
    normalizeWith_unit _ _ hrho hrhopos.ne'
  rw [hspec] at hltau
  simp only [d10LabelUp, d10SpecUp]
  rw [hspec]
  exact label_up_eq_proj _ _ _ _ _ _ hn hlupos hlx hlxpos hly hlypos hltau hltaupos

end Dice
namespace Dice

/-- Closed instantiation of C7 at the genuine real constants: on face 0 of
the D10, with every divided-out length taken as the true Euclidean length,
the label basis's up direction equals the normalized in-plane projection of
the centre-to-nearest-apex direction. -/
theorem c7_label_up_is_projected_apex_direction_witness :
    d10LabelUp ((1 + Real.sqrt 5)/2) (Real.sin (Real.pi/5)) ((Real.sqrt (40441/40000))⁻¹) (Real.sqrt (vnormSq (d10FaceDirRaw ((1 + Real.sqrt 5)/2) (Real.sin (Real.pi/5)) ((Real.sqrt (40441/40000))⁻¹) 0))) (Real.sqrt (vnormSq (d10TopDir ((1 + Real.sqrt 5)/2) (Real.sin (Real.pi/5)) ((Real.sqrt (40441/40000))⁻¹) 0))) (Real.sqrt (vnormSq (vcross (normalizeWith (d10TopDir ((1 + Real.sqrt 5)/2) (Real.sin (Real.pi/5)) ((Real.sqrt (40441/40000))⁻¹) 0) (Real.sqrt (vnormSq (d10TopDir ((1 + Real.sqrt 5)/2) (Real.sin (Real.pi/5)) ((Real.sqrt (40441/40000))⁻¹) 0)))) (d10FaceNormal ((1 + Real.sqrt 5)/2) (Real.sin (Real.pi/5)) ((Real.sqrt (40441/40000))⁻¹) (Real.sqrt (vnormSq (d10FaceDirRaw ((1 + Real.sqrt 5)/2) (Real.sin (Real.pi/5)) ((Real.sqrt (40441/40000))⁻¹) 0))) 0)))) 1 0
      = d10SpecUp ((1 + Real.sqrt 5)/2) (Real.sin (Real.pi/5)) ((Real.sqrt (40441/40000))⁻¹) (Real.sqrt (vnormSq (d10FaceDirRaw ((1 + Real.sqrt 5)/2) (Real.sin (Real.pi/5)) ((Real.sqrt (40441/40000))⁻¹) 0))) (Real.sqrt (vnormSq (projPlane (d10FaceNormal ((1 + Real.sqrt 5)/2) (Real.sin (Real.pi/5)) ((Real.sqrt (40441/40000))⁻¹) (Real.sqrt (vnormSq (d10FaceDirRaw ((1 + Real.sqrt 5)/2) (Real.sin (Real.pi/5)) ((Real.sqrt (40441/40000))⁻¹) 0))) 0) (vsub (nearestVert (d10NearerPole ((1 + Real.sqrt 5)/2) (Real.sin (Real.pi/5)) ((Real.sqrt (40441/40000))⁻¹) 0) (d10FaceVerts ((1 + Real.sqrt 5)/2) (Real.sin (Real.pi/5)) ((Real.sqrt (40441/40000))⁻¹) 0)) (d10FaceCenter ((1 + Real.sqrt 5)/2) (Real.sin (Real.pi/5)) ((Real.sqrt (40441/40000))⁻¹) 0))))) 0 := by
  have hT := real_golden_sq
  have ht1 := real_golden_gt_one
  have hS := real_sin36_spec.1
  have hW := real_d10w_spec.1
  obtain ⟨hrho, hrhopos⟩ := sqrt_norm_spec _
    (real_d10_dir_pos _ _ _ hT ht1 hS hW 0 (by norm_num))
  obtain ⟨hlu, hlupos⟩ := sqrt_norm_spec _ (d10_topdir_pos _ _ _ hT ht1 hS hW)
  obtain ⟨hlx, hlxpos⟩ := sqrt_norm_spec _
    (d10_lx_pos _ _ _ _ _ hT ht1 hS hW hrhopos.ne' hlupos.ne')
  obtain ⟨hltau, hltaupos⟩ := sqrt_norm_spec _
    (d10_proj_pos _ _ _ _ hT ht1 hS hW hrho hrhopos)
  have hn : vnormSq (d10FaceNormal ((1 + Real.sqrt 5)/2) (Real.sin (Real.pi/5)) ((Real.sqrt (40441/40000))⁻¹) (Real.sqrt (vnormSq (d10FaceDirRaw ((1 + Real.sqrt 5)/2) (Real.sin (Real.pi/5)) ((Real.sqrt (40441/40000))⁻¹) 0))) 0) = 1 :=
    normalizeWith_unit _ _ hrho hrhopos.ne'
  have hly : ((1:ℝ))^2 = vnormSq (vcross (d10FaceNormal ((1 + Real.sqrt 5)/2) (Real.sin (Real.pi/5)) ((Real.sqrt (40441/40000))⁻¹) (Real.sqrt (vnormSq (d10FaceDirRaw ((1 + Real.sqrt 5)/2) (Real.sin (Real.pi/5)) ((Real.sqrt (40441/40000))⁻¹) 0))) 0)
      (normalizeWith (vcross (normalizeWith (d10TopDir ((1 + Real.sqrt 5)/2) (Real.sin (Real.pi/5)) ((Real.sqrt (40441/40000))⁻¹) 0) (Real.sqrt (vnormSq (d10TopDir ((1 + Real.sqrt 5)/2) (Real.sin (Real.pi/5)) ((Real.sqrt (40441/40000))⁻¹) 0)))) (d10FaceNormal ((1 + Real.sqrt 5)/2) (Real.sin (Real.pi/5)) ((Real.sqrt (40441/40000))⁻¹) (Real.sqrt (vnormSq (d10FaceDirRaw ((1 + Real.sqrt 5)/2) (Real.sin (Real.pi/5)) ((Real.sqrt (40441/40000))⁻¹) 0))) 0)) (Real.sqrt (vnormSq (vcross (normalizeWith (d10TopDir ((1 + Real.sqrt 5)/2) (Real.sin (Real.pi/5)) ((Real.sqrt (40441/40000))⁻¹) 0) (Real.sqrt (vnormSq (d10TopDir ((1 + Real.sqrt 5)/2) (Real.sin (Real.pi/5)) ((Real.sqrt (40441/40000))⁻¹) 0)))) (d10FaceNormal ((1 + Real.sqrt 5)/2) (Real.sin (Real.pi/5)) ((Real.sqrt (40441/40000))⁻¹) (Real.sqrt (vnormSq (d10FaceDirRaw ((1 + Real.sqrt 5)/2) (Real.sin (Real.pi/5)) ((Real.sqrt (40441/40000))⁻¹) 0))) 0)))))) := by
    rw [one_pow]
    exact (cross_unit_perp _ _ _ hn (vdot_cross_right _ _) hlx hlxpos.ne').symm
  exact c7_label_up_is_projected_apex_direction _ _ _ _ _ _ _ _ 0 (by norm_num)
    hrho hrhopos hlu hlupos hlx hlxpos hly one_pos hltau hltaupos

end Dice
